import Mathlib

/-!
Verification of the Warning Reconciliation & Severity Classification Engine
of the extreme-event-analysis repository.

The tabular pandas pipeline is shallowly embedded as Lean functions over
lists of records.  Timestamps and calendar days are embedded as natural
numbers (the source only compares, increments by one day, and sorts them);
numeric observation values and thresholds are embedded as rationals.
Pandas multi-column sorts use a stable lexicographic sort, embedded here as
insertion sort over a lexicographic sort key.
-/

namespace ExtremeEventAnalysis

/-! ### Generic stable sort by key (pandas sort_values on several columns) -/

instance instDecRelKey {α κ : Type} [LinearOrder κ] (f : α → κ) :
    DecidableRel (fun a b => f a ≤ f b) :=
  fun a b => inferInstanceAs (Decidable (f a ≤ f b))

instance instTotalKey {α κ : Type} [LinearOrder κ] (f : α → κ) :
    IsTotal α (fun a b => f a ≤ f b) :=
  ⟨fun a b => le_total (f a) (f b)⟩

instance instTransKey {α κ : Type} [LinearOrder κ] (f : α → κ) :
    IsTrans α (fun a b => f a ≤ f b) :=
  ⟨fun _ _ _ h1 h2 => le_trans h1 h2⟩

/-- Stable sort of a list, ascending in the sort key `f`.  Models pandas
sort_values (lexsort on several columns is stable). -/
def sortByKey {α κ : Type} [LinearOrder κ] (f : α → κ) (l : List α) : List α :=
  List.insertionSort (fun a b => f a ≤ f b) l

theorem sortByKey_perm {α κ : Type} [LinearOrder κ] (f : α → κ) (l : List α) :
    List.Perm (sortByKey f l) l :=
  List.perm_insertionSort _ l

theorem sortByKey_sorted {α κ : Type} [LinearOrder κ] (f : α → κ) (l : List α) :
    List.Sorted (fun a b => f a ≤ f b) (sortByKey f l) :=
  List.sorted_insertionSort _ l

/-- The head of a sorted group (sort first, then restrict to the group) is a
member of the group and minimizes the sort key over the group. -/
theorem head_filter_sort {α κ : Type} [LinearOrder κ] (f : α → κ) (p : α → Bool)
    (l : List α) (h : α) (hh : ((sortByKey f l).filter p).head? = some h) :
    (h ∈ l ∧ p h) ∧ ∀ x ∈ l, p x → f h ≤ f x := by
  have hsorted : List.Sorted (fun a b => f a ≤ f b) ((sortByKey f l).filter p) :=
    (sortByKey_sorted f l).filter p
  have hmemf : ∀ x, x ∈ (sortByKey f l).filter p ↔ (x ∈ l ∧ p x) := by
    intro x
    rw [List.mem_filter]
    constructor
    · rintro ⟨hx, hpx⟩
      exact ⟨((sortByKey_perm f l).mem_iff).mp hx, hpx⟩
    · rintro ⟨hx, hpx⟩
      exact ⟨((sortByKey_perm f l).mem_iff).mpr hx, hpx⟩
  rcases hfl : (sortByKey f l).filter p with _ | ⟨a, t⟩
  · rw [hfl] at hh; simp at hh
  · rw [hfl] at hh
    simp only [List.head?_cons, Option.some.injEq] at hh
    rw [hfl] at hsorted
    have hmemf2 : ∀ x, x ∈ a :: t ↔ (x ∈ l ∧ p x) := by
      intro x; rw [← hfl]; exact hmemf x
    subst hh
    refine ⟨(hmemf2 a).mp (List.mem_cons_self a t), ?_⟩
    intro x hx hpx
    have hxmem : x ∈ a :: t := (hmemf2 x).mpr ⟨hx, hpx⟩
    rcases List.mem_cons.mp hxmem with rfl | hxt
    · exact le_refl _
    · exact List.rel_of_sorted_cons hsorted x hxt

/-- The head of a sorted group (restrict to the group first, then sort) is a
member of the group and minimizes the sort key over the group. -/
theorem head_sort_filter {α κ : Type} [LinearOrder κ] (f : α → κ) (p : α → Bool)
    (l : List α) (h : α) (hh : (sortByKey f (l.filter p)).head? = some h) :
    (h ∈ l ∧ p h) ∧ ∀ x ∈ l, p x → f h ≤ f x := by
  have hsorted : List.Sorted (fun a b => f a ≤ f b) (sortByKey f (l.filter p)) :=
    sortByKey_sorted f (l.filter p)
  have hmemf : ∀ x, x ∈ sortByKey f (l.filter p) ↔ (x ∈ l ∧ p x) := by
    intro x
    rw [(sortByKey_perm f (l.filter p)).mem_iff, List.mem_filter]
  rcases hfl : sortByKey f (l.filter p) with _ | ⟨a, t⟩
  · rw [hfl] at hh; simp at hh
  · rw [hfl] at hh
    simp only [List.head?_cons, Option.some.injEq] at hh
    rw [hfl] at hsorted
    have hmemf2 : ∀ x, x ∈ a :: t ↔ (x ∈ l ∧ p x) := by
      intro x; rw [← hfl]; exact hmemf x
    subst hh
    refine ⟨(hmemf2 a).mp (List.mem_cons_self a t), ?_⟩
    intro x hx hpx
    have hxmem : x ∈ a :: t := (hmemf2 x).mpr ⟨hx, hpx⟩
    rcases List.mem_cons.mp hxmem with rfl | hxt
    · exact le_refl _
    · exact List.rel_of_sorted_cons hsorted x hxt

/-- A nonempty group has a head after sorting. -/
theorem head_sort_filter_isSome {α κ : Type} [LinearOrder κ] (f : α → κ)
    (p : α → Bool) (l : List α) (x : α) (hx : x ∈ l) (hpx : p x) :
    ∃ h, (sortByKey f (l.filter p)).head? = some h := by
  have hxf : x ∈ l.filter p := List.mem_filter.mpr ⟨hx, hpx⟩
  have hxs : x ∈ sortByKey f (l.filter p) := ((sortByKey_perm f _).mem_iff).mpr hxf
  rcases hfl : sortByKey f (l.filter p) with _ | ⟨a, t⟩
  · rw [hfl] at hxs; simp at hxs
  · exact ⟨a, rfl⟩

theorem head_filter_sort_isSome {α κ : Type} [LinearOrder κ] (f : α → κ)
    (p : α → Bool) (l : List α) (x : α) (hx : x ∈ l) (hpx : p x) :
    ∃ h, ((sortByKey f l).filter p).head? = some h := by
  have hxs : x ∈ sortByKey f l := ((sortByKey_perm f _).mem_iff).mpr hx
  have hxf : x ∈ (sortByKey f l).filter p := List.mem_filter.mpr ⟨hxs, hpx⟩
  rcases hfl : (sortByKey f l).filter p with _ | ⟨a, t⟩
  · rw [hfl] at hxf; simp at hxf
  · exact ⟨a, rfl⟩

/-! ### Bulletin data model (event_data_commons.py)

A raw CAP warning row as produced by __extract_caps_data__ after the
numeric/date coercions of __transform_caps_warnings__: the columns of
FIELDS_CAP_DATA.  `sent` is a timestamp, `effective`/`expires` are calendar
days, both embedded as naturals; `param_value` has been coerced to a number;
`severity` is the textual token stored by the extractor. -/
structure CapRow where
  id : String
  sent : Nat
  description : String
  effective : Nat
  expires : Nat
  severity : String
  param_id : String
  param_name : String
  param_value : Int
  geocode : String
  polygon : String
deriving DecidableEq

/-- ALLOWED_PARAMETER_ID: the keys of MAPPING_PARAMETERS. -/
def ALLOWED_PARAMETER_ID : List String :=
  ["BT", "AT", "PR", "PR_1H", "PR_12H",
   "PR_1H.UNIFORME", "PR_12H.UNIFORME", "PR_1H.SEVERA", "PR_12H.SEVERA",
   "PR_1H.EXTREMA", "PR_12H.EXTREMA", "NE", "VI"]

/-- MAPPING_SEVERITY_VALUE as a partial map (dict lookup). -/
def severityValue (s : String) : Option Nat :=
  if s = "verde" then some 0
  else if s = "amarillo" then some 1
  else if s = "naranja" then some 2
  else if s = "rojo" then some 3
  else none

/-- Numeric severity of a token (0 for unknown), used to state the
consolidation claims. -/
def sevNum (s : String) : Nat := (severityValue s).getD 0

/-- The row-expansion loop of __transform_caps_warnings__: starting from day
`effective`, emit one effective=expires row per day while `effective` is
before `expires`, then emit the final row for the current day. -/
def expandFrom (w : CapRow) (effective : Nat) : List CapRow :=
  if h : effective < w.expires then
    { w with effective := effective, expires := effective } ::
      expandFrom w (effective + 1)
  else
    [{ w with effective := effective, expires := w.expires }]
termination_by w.expires - effective
decreasing_by omega

/-- Day-expansion of one row (the per-row body of __transform_caps_warnings__). -/
def expandRow (w : CapRow) : List CapRow := expandFrom w w.effective

/-- __transform_caps_warnings__: keep rows whose param_id is allowed, then
expand each row into one row per covered day.  (The datetime and numeric
coercions are reflected in the field types of `CapRow`.) -/
def transformCapsWarnings (rows : List CapRow) : List CapRow :=
  (rows.filter (fun w => ALLOWED_PARAMETER_ID.contains w.param_id)).flatMap expandRow

/-! ### Bulletin Consolidator (__clean_caps_files__)

The source sorts by (geocode asc, param_id asc, effective asc, severity desc,
sent desc) — note `severity` is the *textual* token at this point — groups by
(geocode, param_id, effective), and keeps the head of each group after
re-sorting it by (severity desc, sent desc). -/

/-- Grouping key: (geocode, param_id, effective), ordered lexicographically as
pandas orders groups.  Strings are compared by code-point lexicographic order,
which is the order of their character lists; we key on `String.data` because
the character-list order is the same order and is kernel-computable. -/
abbrev GroupKey := List Char ×ₗ List Char ×ₗ Nat

def keyOf (w : CapRow) : GroupKey :=
  toLex (w.geocode.data, toLex (w.param_id.data, w.effective))

/-- Within-group sort key: textual severity descending, then sent descending. -/
abbrev TieKey := (List Char)ᵒᵈ ×ₗ Natᵒᵈ

def tieKey (w : CapRow) : TieKey :=
  toLex (OrderDual.toDual w.severity.data, OrderDual.toDual w.sent)

/-- The full five-column sort key of __clean_caps_files__. -/
def outerKey (w : CapRow) : GroupKey ×ₗ TieKey := toLex (keyOf w, tieKey w)

/-- The groupby/apply/head step of __clean_caps_files__: sort all rows by the
five-column key, then for each group key (groups are enumerated in ascending
key order, as pandas groupby does) re-sort the group by (severity desc, sent
desc) and keep the first row. -/
def consolidateRows (rows : List CapRow) : List CapRow :=
  let sorted := sortByKey outerKey rows
  ((sorted.map keyOf).dedup).filterMap
    (fun k => (sortByKey tieKey (sorted.filter (fun w => keyOf w = k))).head?)

/-- The surviving columns FIELDS_WARNING_DATA (sent and expires are dropped). -/
structure WarningRow where
  id : String
  effective : Nat
  description : String
  severity : String
  param_id : String
  param_name : String
  param_value : Int
  geocode : String
  polygon : String
deriving DecidableEq

def projectWarningFields (w : CapRow) : WarningRow :=
  { id := w.id, effective := w.effective, description := w.description,
    severity := w.severity, param_id := w.param_id, param_name := w.param_name,
    param_value := w.param_value, geocode := w.geocode, polygon := w.polygon }

/-- __clean_caps_files__: consolidate, then keep FIELDS_WARNING_DATA. -/
def cleanCapsFiles (rows : List CapRow) : List WarningRow :=
  (consolidateRows rows).map projectWarningFields

/-! ### Day expansion: claim C8 -/

theorem expandFrom_eq (n : Nat) : ∀ (w : CapRow) (e : Nat), w.expires = e + n →
    expandFrom w e =
      (List.range' e (n + 1)).map (fun d => { w with effective := d, expires := d }) := by
  induction n with
  | zero =>
      intro w e hexp
      rw [expandFrom, dif_neg (by omega)]
      simp [List.range', hexp]
  | succ n ih =>
      intro w e hexp
      rw [expandFrom, dif_pos (by omega)]
      rw [ih w (e + 1) (by omega)]
      rfl

/-- C8.  Day-expansion of a row whose effective day is at most its expires day
produces exactly one row per calendar day in the inclusive range, each
identical to the original except that effective and expires both become that
day; a row with effective = expires passes through as the single original
row. -/
theorem C8_day_expansion (w : CapRow) (hle : w.effective ≤ w.expires) :
    expandRow w =
      (List.range' w.effective (w.expires - w.effective + 1)).map
        (fun d => { w with effective := d, expires := d }) ∧
    (w.effective = w.expires → expandRow w = [w]) := by
  have hmain := expandFrom_eq (w.expires - w.effective) w w.effective (by omega)
  refine ⟨hmain, fun heq => ?_⟩
  rcases w with ⟨id, sent, description, effective, expires, severity, param_id,
    param_name, param_value, geocode, polygon⟩
  simp only at heq
  subst heq
  exact expandFrom_eq 0 _ effective rfl

/-- A concrete three-day raw warning row used as the C8 witness input. -/
def wC8 : CapRow :=
  { id := "w", sent := 0, description := "", effective := 3, expires := 5,
    severity := "amarillo", param_id := "AT", param_name := "", param_value := 0,
    geocode := "61", polygon := "" }

/-- Witness for C8 at a concrete three-day row. -/
theorem C8_day_expansion_witness :
    wC8.effective ≤ wC8.expires ∧
    (expandRow wC8 =
      (List.range' wC8.effective (wC8.expires - wC8.effective + 1)).map
        (fun d => { wC8 with effective := d, expires := d }) ∧
     (wC8.effective = wC8.expires → expandRow wC8 = [wC8])) :=
  ⟨by decide, C8_day_expansion wC8 (by decide)⟩

/-! ### Consolidator correctness: claim C1 -/

theorem filterMap_keys {α κ : Type} (g : κ → Option α) (keyF : α → κ) :
    ∀ ks : List κ, (∀ k ∈ ks, ∃ h, g k = some h ∧ keyF h = k) →
      (ks.filterMap g).map keyF = ks := by
  intro ks
  induction ks with
  | nil => intro _; rfl
  | cons k ks ih =>
      intro hg
      obtain ⟨h, hgk, hkey⟩ := hg k (List.mem_cons_self k ks)
      rw [List.filterMap_cons, hgk, List.map_cons, hkey,
        ih (fun k2 hk2 => hg k2 (List.mem_cons_of_mem k hk2))]

theorem tieKey_le_iff (a b : CapRow) :
    tieKey a ≤ tieKey b ↔
      (b.severity.data < a.severity.data ∨
        (a.severity.data = b.severity.data ∧ b.sent ≤ a.sent)) := by
  unfold tieKey
  rw [Prod.Lex.le_iff]
  simp only [OrderDual.toDual_lt_toDual, OrderDual.toDual_le_toDual]
  constructor
  · rintro (h | ⟨heq, hle⟩)
    · exact Or.inl h
    · exact Or.inr ⟨OrderDual.toDual_inj.mp heq, hle⟩
  · rintro (h | ⟨heq, hle⟩)
    · exact Or.inl h
    · exact Or.inr ⟨OrderDual.toDual_inj.mpr heq, hle⟩

/-- The severity tokens that can reach consolidation: __extract_caps_data__
only stores rows whose token maps to a positive MAPPING_SEVERITY_VALUE. -/
def POSITIVE_SEVERITIES : List String := ["amarillo", "naranja", "rojo"]

/-- On the reachable tokens, the textual (code-point) order used by the
source's sort coincides with the numeric severity order. -/
theorem sev_data_lt_iff (a b : String) (ha : a ∈ POSITIVE_SEVERITIES)
    (hb : b ∈ POSITIVE_SEVERITIES) : a.data < b.data ↔ sevNum a < sevNum b := by
  simp only [POSITIVE_SEVERITIES, List.mem_cons, List.not_mem_nil, or_false] at ha hb
  rcases ha with rfl | rfl | rfl <;> rcases hb with rfl | rfl | rfl <;> decide

theorem sev_data_eq_iff (a b : String) (ha : a ∈ POSITIVE_SEVERITIES)
    (hb : b ∈ POSITIVE_SEVERITIES) : a.data = b.data ↔ sevNum a = sevNum b := by
  simp only [POSITIVE_SEVERITIES, List.mem_cons, List.not_mem_nil, or_false] at ha hb
  rcases ha with rfl | rfl | rfl <;> rcases hb with rfl | rfl | rfl <;> decide

/-- Properties of the row selected from one group by __clean_caps_files__. -/
theorem consolidate_selected_spec (rows : List CapRow) (k : GroupKey) (h : CapRow)
    (hh : (sortByKey tieKey
        ((sortByKey outerKey rows).filter (fun w => keyOf w = k))).head? = some h) :
    (h ∈ rows ∧ keyOf h = k) ∧ ∀ x ∈ rows, keyOf x = k → tieKey h ≤ tieKey x := by
  have hmain := head_sort_filter tieKey (fun w => decide (keyOf w = k))
    (sortByKey outerKey rows) h hh
  obtain ⟨⟨hmem, hph⟩, hmin⟩ := hmain
  refine ⟨⟨((sortByKey_perm outerKey rows).mem_iff).mp hmem, of_decide_eq_true hph⟩, ?_⟩
  intro x hx hkx
  exact hmin x (((sortByKey_perm outerKey rows).mem_iff).mpr hx) (decide_eq_true hkx)

/-- C1.  On day-expanded rows (whose severity tokens are the positive tokens
that __extract_caps_data__ admits), __clean_caps_files__ keeps exactly one row
per (geocode, param_id, effective) group, namely a group member of maximal
numeric severity whose sent timestamp is maximal among the group members of
that severity.  (The textual severity sort of the source coincides with the
numeric order on the reachable tokens.) -/
theorem C1_consolidator (rows : List CapRow)
    (hsev : ∀ w ∈ rows, w.severity ∈ POSITIVE_SEVERITIES) :
    ((consolidateRows rows).map keyOf).Nodup ∧
    (∀ k, k ∈ (consolidateRows rows).map keyOf ↔ k ∈ rows.map keyOf) ∧
    (∀ r ∈ consolidateRows rows, r ∈ rows ∧
      (∀ x ∈ rows, keyOf x = keyOf r → sevNum x.severity ≤ sevNum r.severity) ∧
      (∀ x ∈ rows, keyOf x = keyOf r → sevNum x.severity = sevNum r.severity →
        x.sent ≤ r.sent)) := by
  have hsortmem : ∀ x : CapRow, x ∈ sortByKey outerKey rows ↔ x ∈ rows :=
    fun x => (sortByKey_perm outerKey rows).mem_iff
  have hkeys : ∀ k ∈ ((sortByKey outerKey rows).map keyOf).dedup,
      ∃ h, (sortByKey tieKey
        ((sortByKey outerKey rows).filter (fun w => keyOf w = k))).head? = some h := by
    intro k hk
    rw [List.mem_dedup, List.mem_map] at hk
    obtain ⟨w, hw, hwk⟩ := hk
    exact head_sort_filter_isSome tieKey _ _ w hw (decide_eq_true hwk)
  have hsel : ∀ k ∈ ((sortByKey outerKey rows).map keyOf).dedup,
      ∃ h, (sortByKey tieKey
          ((sortByKey outerKey rows).filter (fun w => keyOf w = k))).head? = some h ∧
        keyOf h = k := by
    intro k hk
    obtain ⟨h, hh⟩ := hkeys k hk
    exact ⟨h, hh, (consolidate_selected_spec rows k h hh).1.2⟩
  have hout : (consolidateRows rows).map keyOf =
      ((sortByKey outerKey rows).map keyOf).dedup := by
    unfold consolidateRows
    exact filterMap_keys _ keyOf _ hsel
  refine ⟨?_, ?_, ?_⟩
  · rw [hout]; exact List.nodup_dedup _
  · intro k
    rw [hout, List.mem_dedup]
    constructor
    · intro hk
      rw [List.mem_map] at hk ⊢
      obtain ⟨w, hw, hwk⟩ := hk
      exact ⟨w, (hsortmem w).mp hw, hwk⟩
    · intro hk
      rw [List.mem_map] at hk ⊢
      obtain ⟨w, hw, hwk⟩ := hk
      exact ⟨w, (hsortmem w).mpr hw, hwk⟩
  · intro r hr
    unfold consolidateRows at hr
    rw [List.mem_filterMap] at hr
    obtain ⟨k, hk, hgk⟩ := hr
    obtain ⟨⟨hrmem, hrk⟩, hmin⟩ := consolidate_selected_spec rows k r hgk
    refine ⟨hrmem, ?_, ?_⟩
    · intro x hx hkx
      have hle := hmin x hx (by rw [hkx, hrk])
      rw [tieKey_le_iff] at hle
      rcases hle with hlt | ⟨heq, _⟩
      · exact le_of_lt ((sev_data_lt_iff _ _ (hsev x hx) (hsev r hrmem)).mp hlt)
      · exact le_of_eq ((sev_data_eq_iff _ _ (hsev x hx) (hsev r hrmem)).mp heq.symm)
    · intro x hx hkx hseveq
      have hle := hmin x hx (by rw [hkx, hrk])
      rw [tieKey_le_iff] at hle
      rcases hle with hlt | ⟨_, hsent⟩
      · have := (sev_data_lt_iff _ _ (hsev x hx) (hsev r hrmem)).mp hlt
        omega
      · exact hsent

/-- Scenario A inputs: two rows for geocode 61, parameter AT, the same day,
severities amarillo (sent 08) and naranja (sent 10). -/
def wScenA1 : CapRow :=
  { id := "a", sent := 8, description := "", effective := 1, expires := 1,
    severity := "amarillo", param_id := "AT", param_name := "Temperatura máxima",
    param_value := 36, geocode := "61", polygon := "" }

def wScenA2 : CapRow :=
  { wScenA1 with id := "b", sent := 10, severity := "naranja" }

/-- Witness for C1: scenario A consolidates to the single naranja row. -/
theorem C1_consolidator_witness :
    (∀ w ∈ [wScenA1, wScenA2], w.severity ∈ POSITIVE_SEVERITIES) ∧
    (((consolidateRows [wScenA1, wScenA2]).map keyOf).Nodup ∧
     (∀ k, k ∈ (consolidateRows [wScenA1, wScenA2]).map keyOf ↔
        k ∈ [wScenA1, wScenA2].map keyOf) ∧
     (∀ r ∈ consolidateRows [wScenA1, wScenA2], r ∈ [wScenA1, wScenA2] ∧
       (∀ x ∈ [wScenA1, wScenA2], keyOf x = keyOf r →
          sevNum x.severity ≤ sevNum r.severity) ∧
       (∀ x ∈ [wScenA1, wScenA2], keyOf x = keyOf r →
          sevNum x.severity = sevNum r.severity → x.sent ≤ r.sent))) ∧
    cleanCapsFiles [wScenA1, wScenA2] = [projectWarningFields wScenA2] :=
  ⟨by decide, C1_consolidator [wScenA1, wScenA2] (by decide), by decide⟩

/-! ### Severity Classifier (event_data_processor.py, __evaluate_observed_severity__)

An observation row after __estimate_missing_observations__ and
__geolocate_observed_data__ (the FIELDS_COMBINED_RESULTS value columns, with
identification fields); threshold rows carry the FIELDS_THRESHOLD_DATA
columns.  Numeric values are embedded as rationals. -/

structure ObservedRow where
  date : Nat
  idema : String
  name : String
  geocode : String
  province : String
  latitude : ℚ
  longitude : ℚ
  altitude : ℚ
  minimum_temperature : ℚ
  maximum_temperature : ℚ
  uniform_precipitation_1h : ℚ
  severe_precipitation_1h : ℚ
  extreme_precipitation_1h : ℚ
  uniform_precipitation_12h : ℚ
  severe_precipitation_12h : ℚ
  extreme_precipitation_12h : ℚ
  snowfall_24h : ℚ
  wind_speed : ℚ
deriving DecidableEq

structure ThresholdRow where
  geocode : String
  region : String
  area : String
  province : String
  maximum_temperature_yellow_warning : ℚ
  maximum_temperature_orange_warning : ℚ
  maximum_temperature_red_warning : ℚ
  minimum_temperature_yellow_warning : ℚ
  minimum_temperature_orange_warning : ℚ
  minimum_temperature_red_warning : ℚ
  wind_speed_yellow_warning : ℚ
  wind_speed_orange_warning : ℚ
  wind_speed_red_warning : ℚ
  precipitation_12h_yellow_warning : ℚ
  precipitation_12h_orange_warning : ℚ
  precipitation_12h_red_warning : ℚ
  precipitation_1h_yellow_warning : ℚ
  precipitation_1h_orange_warning : ℚ
  precipitation_1h_red_warning : ℚ
  snowfall_24h_yellow_warning : ℚ
  snowfall_24h_orange_warning : ℚ
  snowfall_24h_red_warning : ℚ
deriving DecidableEq

/-- The if/elif chain used by every ascending-direction severity lambda of
__evaluate_observed_severity__. -/
def classifyAscending (y o r v : ℚ) : Nat :=
  if y ≤ v ∧ v < o then 1
  else if o ≤ v ∧ v < r then 2
  else if r ≤ v then 3
  else 0

/-- The if/elif chain of the minimum-temperature severity lambda
(descending direction). -/
def classifyDescending (y o r v : ℚ) : Nat :=
  if v ≤ y ∧ o < v then 1
  else if v ≤ o ∧ r < v then 2
  else if v ≤ r then 3
  else 0

/-- An observation row with the ten computed severity columns. -/
structure EvaluatedRow extends ObservedRow where
  minimum_temperature_severity : Nat
  maximum_temperature_severity : Nat
  uniform_precipitation_1h_severity : Nat
  severe_precipitation_1h_severity : Nat
  extreme_precipitation_1h_severity : Nat
  uniform_precipitation_12h_severity : Nat
  severe_precipitation_12h_severity : Nat
  extreme_precipitation_12h_severity : Nat
  snowfall_24h_severity : Nat
  wind_speed_severity : Nat
deriving DecidableEq

/-- The per-row severity computation of __evaluate_observed_severity__ for one
observation row joined with its threshold row.  Each of the ten severity
columns is the source's if/elif chain over the matching threshold columns:
all ascending except the minimum temperature, which is descending. -/
def classifyRow (t : ThresholdRow) (o : ObservedRow) : EvaluatedRow :=
  { toObservedRow := o
    minimum_temperature_severity :=
      classifyDescending t.minimum_temperature_yellow_warning
        t.minimum_temperature_orange_warning t.minimum_temperature_red_warning
        o.minimum_temperature
    maximum_temperature_severity :=
      classifyAscending t.maximum_temperature_yellow_warning
        t.maximum_temperature_orange_warning t.maximum_temperature_red_warning
        o.maximum_temperature
    uniform_precipitation_1h_severity :=
      classifyAscending t.precipitation_1h_yellow_warning
        t.precipitation_1h_orange_warning t.precipitation_1h_red_warning
        o.uniform_precipitation_1h
    severe_precipitation_1h_severity :=
      classifyAscending t.precipitation_1h_yellow_warning
        t.precipitation_1h_orange_warning t.precipitation_1h_red_warning
        o.severe_precipitation_1h
    extreme_precipitation_1h_severity :=
      classifyAscending t.precipitation_1h_yellow_warning
        t.precipitation_1h_orange_warning t.precipitation_1h_red_warning
        o.extreme_precipitation_1h
    uniform_precipitation_12h_severity :=
      classifyAscending t.precipitation_12h_yellow_warning
        t.precipitation_12h_orange_warning t.precipitation_12h_red_warning
        o.uniform_precipitation_12h
    severe_precipitation_12h_severity :=
      classifyAscending t.precipitation_12h_yellow_warning
        t.precipitation_12h_orange_warning t.precipitation_12h_red_warning
        o.severe_precipitation_12h
    extreme_precipitation_12h_severity :=
      classifyAscending t.precipitation_12h_yellow_warning
        t.precipitation_12h_orange_warning t.precipitation_12h_red_warning
        o.extreme_precipitation_12h
    snowfall_24h_severity :=
      classifyAscending t.snowfall_24h_yellow_warning
        t.snowfall_24h_orange_warning t.snowfall_24h_red_warning
        o.snowfall_24h
    wind_speed_severity :=
      classifyAscending t.wind_speed_yellow_warning
        t.wind_speed_orange_warning t.wind_speed_red_warning
        o.wind_speed }

/-- The classification stage of __evaluate_observed_severity__: the inner
merge of observations with thresholds on geocode, followed by the per-row
severity computation.  An observation row produces one output row per
threshold row carrying its geocode; rows whose geocode matches no threshold
row produce nothing. -/
def evaluateObservedSeverity (thresholds : List ThresholdRow)
    (observations : List ObservedRow) : List EvaluatedRow :=
  observations.flatMap (fun o =>
    (thresholds.filter (fun t => t.geocode = o.geocode)).map
      (fun t => classifyRow t o))

/-! ### Classifier characterization: claim C2 -/

/-- C2.  Under the threshold invariant (boundaries ascending for ascending
parameters, descending for the minimum temperature), the classifier chains
return severity 1/2/3/0 exactly on the bands the spec describes, and always
return a single ordinal in {0,1,2,3}. All ten per-parameter severity columns
are the ascending chain on their threshold columns except the minimum
temperature, which is the descending chain. -/
theorem C2_classifier (y o r v : ℚ) :
    ((y ≤ o → o ≤ r →
      ((classifyAscending y o r v = 1 ↔ (y ≤ v ∧ v < o)) ∧
       (classifyAscending y o r v = 2 ↔ (o ≤ v ∧ v < r)) ∧
       (classifyAscending y o r v = 3 ↔ r ≤ v) ∧
       (classifyAscending y o r v = 0 ↔ v < y))) ∧
     (o ≤ y → r ≤ o →
      ((classifyDescending y o r v = 1 ↔ (v ≤ y ∧ o < v)) ∧
       (classifyDescending y o r v = 2 ↔ (v ≤ o ∧ r < v)) ∧
       (classifyDescending y o r v = 3 ↔ v ≤ r) ∧
       (classifyDescending y o r v = 0 ↔ y < v)))) ∧
    (classifyAscending y o r v ≤ 3 ∧ classifyDescending y o r v ≤ 3) ∧
    (∀ t ob,
      (classifyRow t ob).minimum_temperature_severity =
        classifyDescending t.minimum_temperature_yellow_warning
          t.minimum_temperature_orange_warning t.minimum_temperature_red_warning
          ob.minimum_temperature ∧
      (classifyRow t ob).maximum_temperature_severity =
        classifyAscending t.maximum_temperature_yellow_warning
          t.maximum_temperature_orange_warning t.maximum_temperature_red_warning
          ob.maximum_temperature ∧
      (classifyRow t ob).wind_speed_severity =
        classifyAscending t.wind_speed_yellow_warning
          t.wind_speed_orange_warning t.wind_speed_red_warning ob.wind_speed ∧
      (classifyRow t ob).snowfall_24h_severity =
        classifyAscending t.snowfall_24h_yellow_warning
          t.snowfall_24h_orange_warning t.snowfall_24h_red_warning ob.snowfall_24h ∧
      (classifyRow t ob).uniform_precipitation_1h_severity =
        classifyAscending t.precipitation_1h_yellow_warning
          t.precipitation_1h_orange_warning t.precipitation_1h_red_warning
          ob.uniform_precipitation_1h ∧
      (classifyRow t ob).severe_precipitation_1h_severity =
        classifyAscending t.precipitation_1h_yellow_warning
          t.precipitation_1h_orange_warning t.precipitation_1h_red_warning
          ob.severe_precipitation_1h ∧
      (classifyRow t ob).extreme_precipitation_1h_severity =
        classifyAscending t.precipitation_1h_yellow_warning
          t.precipitation_1h_orange_warning t.precipitation_1h_red_warning
          ob.extreme_precipitation_1h ∧
      (classifyRow t ob).uniform_precipitation_12h_severity =
        classifyAscending t.precipitation_12h_yellow_warning
          t.precipitation_12h_orange_warning t.precipitation_12h_red_warning
          ob.uniform_precipitation_12h ∧
      (classifyRow t ob).severe_precipitation_12h_severity =
        classifyAscending t.precipitation_12h_yellow_warning
          t.precipitation_12h_orange_warning t.precipitation_12h_red_warning
          ob.severe_precipitation_12h ∧
      (classifyRow t ob).extreme_precipitation_12h_severity =
        classifyAscending t.precipitation_12h_yellow_warning
          t.precipitation_12h_orange_warning t.precipitation_12h_red_warning
          ob.extreme_precipitation_12h) := by
  refine ⟨⟨?_, ?_⟩, ⟨?_, ?_⟩, ?_⟩
  · intro hyo hor
    unfold classifyAscending
    split_ifs with c1 c2 c3
    · refine ⟨by simp [c1], iff_of_false (by decide) ?_, iff_of_false (by decide) ?_,
        iff_of_false (by decide) ?_⟩
      · rintro ⟨ha, hb⟩; linarith [c1.2]
      · intro h; linarith [c1.2]
      · intro h; linarith [c1.1]
    · refine ⟨iff_of_false (by decide) ?_, by simp [c2], iff_of_false (by decide) ?_,
        iff_of_false (by decide) ?_⟩
      · rintro ⟨ha, hb⟩; linarith [c2.1]
      · intro h; linarith [c2.2]
      · intro h; linarith [c2.1]
    · refine ⟨iff_of_false (by decide) ?_, iff_of_false (by decide) ?_, by simp [c3],
        iff_of_false (by decide) ?_⟩
      · rintro ⟨ha, hb⟩; linarith [c3]
      · rintro ⟨ha, hb⟩; linarith [c3]
      · intro h; linarith [c3]
    · push_neg at c1 c2
      have hvy : v < y := by
        by_contra hnot
        push_neg at hnot
        exact c3 (c2 (c1 hnot))
      refine ⟨iff_of_false (by decide) ?_, iff_of_false (by decide) ?_,
        iff_of_false (by decide) ?_, by simp [hvy]⟩
      · rintro ⟨ha, hb⟩; linarith [hvy]
      · rintro ⟨ha, hb⟩; linarith [hvy]
      · intro h; linarith [hvy]
  · intro hoy hro
    unfold classifyDescending
    split_ifs with c1 c2 c3
    · refine ⟨by simp [c1], iff_of_false (by decide) ?_, iff_of_false (by decide) ?_,
        iff_of_false (by decide) ?_⟩
      · rintro ⟨ha, hb⟩; linarith [c1.2]
      · intro h; linarith [c1.2]
      · intro h; linarith [c1.1]
    · refine ⟨iff_of_false (by decide) ?_, by simp [c2], iff_of_false (by decide) ?_,
        iff_of_false (by decide) ?_⟩
      · rintro ⟨ha, hb⟩; linarith [c2.1]
      · intro h; linarith [c2.2]
      · intro h; linarith [c2.1]
    · refine ⟨iff_of_false (by decide) ?_, iff_of_false (by decide) ?_, by simp [c3],
        iff_of_false (by decide) ?_⟩
      · rintro ⟨ha, hb⟩; linarith [c3]
      · rintro ⟨ha, hb⟩; linarith [c3]
      · intro h; linarith [c3]
    · push_neg at c1 c2
      have hvy : y < v := by
        by_contra hnot
        push_neg at hnot
        exact c3 (c2 (c1 hnot))
      refine ⟨iff_of_false (by decide) ?_, iff_of_false (by decide) ?_,
        iff_of_false (by decide) ?_, by simp [hvy]⟩
      · rintro ⟨ha, hb⟩; linarith [hvy]
      · rintro ⟨ha, hb⟩; linarith [hvy]
      · intro h; linarith [hvy]
  · unfold classifyAscending; split_ifs <;> omega
  · unfold classifyDescending; split_ifs <;> omega
  · intro t ob
    exact ⟨rfl, rfl, rfl, rfl, rfl, rfl, rfl, rfl, rfl, rfl⟩

/-- Witness for C2 at scenario B (wind thresholds 70, 90, 120; value 95, band 2)
and scenario C (minimum-temperature thresholds -5, -10, -15; values -12 and -3). -/
theorem C2_classifier_witness :
    ((70 : ℚ) ≤ 90 ∧ (90 : ℚ) ≤ 120 ∧ (-10 : ℚ) ≤ -5 ∧ (-15 : ℚ) ≤ -10) ∧
    (classifyAscending 70 90 120 95 = 2 ↔ ((90 : ℚ) ≤ 95 ∧ (95 : ℚ) < 120)) ∧
    (classifyDescending (-5) (-10) (-15) (-12) = 2 ↔
      ((-12 : ℚ) ≤ -10 ∧ (-15 : ℚ) < -12)) ∧
    (classifyDescending (-5) (-10) (-15) (-3) = 0 ↔ ((-5 : ℚ) < -3)) ∧
    classifyAscending 70 90 120 95 = 2 ∧
    classifyDescending (-5) (-10) (-15) (-12) = 2 ∧
    classifyDescending (-5) (-10) (-15) (-3) = 0 :=
  ⟨by norm_num,
   ((C2_classifier 70 90 120 95).1.1 (by norm_num) (by norm_num)).2.1,
   ((C2_classifier (-5) (-10) (-15) (-12)).1.2 (by norm_num) (by norm_num)).2.1,
   ((C2_classifier (-5) (-10) (-15) (-3)).1.2 (by norm_num) (by norm_num)).2.2.2,
   by decide, by decide, by decide⟩

/-! ### Missing thresholds: claim C5

The source joins observations with thresholds using an *inner* pandas merge on
geocode: an observation row whose geocode has no threshold row simply
disappears from the classification output; nothing is raised or recorded. -/

/-- C5 counterexample input: a threshold table covering only geocode 61 and an
observation row in geocode 99. -/
def tC5 : ThresholdRow :=
  { geocode := "61", region := "r", area := "a", province := "p",
    maximum_temperature_yellow_warning := 36, maximum_temperature_orange_warning := 38,
    maximum_temperature_red_warning := 40,
    minimum_temperature_yellow_warning := -5, minimum_temperature_orange_warning := -10,
    minimum_temperature_red_warning := -15,
    wind_speed_yellow_warning := 70, wind_speed_orange_warning := 90,
    wind_speed_red_warning := 120,
    precipitation_12h_yellow_warning := 60, precipitation_12h_orange_warning := 100,
    precipitation_12h_red_warning := 180,
    precipitation_1h_yellow_warning := 15, precipitation_1h_orange_warning := 30,
    precipitation_1h_red_warning := 60,
    snowfall_24h_yellow_warning := 2, snowfall_24h_orange_warning := 5,
    snowfall_24h_red_warning := 20 }

def oC5 : ObservedRow :=
  { date := 1, idema := "X123", name := "station", geocode := "99", province := "p",
    latitude := 40, longitude := -3, altitude := 650,
    minimum_temperature := -12, maximum_temperature := 5,
    uniform_precipitation_1h := 1, severe_precipitation_1h := 8,
    extreme_precipitation_1h := 18, uniform_precipitation_12h := 12,
    severe_precipitation_12h := 18, extreme_precipitation_12h := 24,
    snowfall_24h := 0, wind_speed := 95 }

/-- C5 counterexample.  The claim says a row whose geocode has no threshold
row must fail classification and be surfaced as an error, not silently
dropped.  The code's inner merge silently drops the row: the classification
output for this input is empty — no error value, no record, no default
severity. -/
theorem C5_missing_threshold_counterexample :
    evaluateObservedSeverity [tC5] [oC5] = [] ∧ oC5.geocode ≠ tC5.geocode := by
  constructor
  · rfl
  · decide

/-- C5 as amended.  A row whose geocode matches no threshold row is silently
dropped by the inner threshold join (it contributes nothing to the output, no
error is surfaced and no severity-0 default row is emitted), while a row with
matching threshold rows is classified once per matching row. -/
theorem C5_missing_threshold_dropped (thresholds : List ThresholdRow)
    (ob : ObservedRow) (rest : List ObservedRow)
    (hnone : ∀ t ∈ thresholds, t.geocode ≠ ob.geocode) :
    evaluateObservedSeverity thresholds (ob :: rest) =
      evaluateObservedSeverity thresholds rest ∧
    evaluateObservedSeverity thresholds [ob] = [] ∧
    ∀ ts2 : List ThresholdRow, ∀ o2 : ObservedRow,
      evaluateObservedSeverity ts2 [o2] =
        (ts2.filter (fun t => t.geocode = o2.geocode)).map (fun t => classifyRow t o2) := by
  have hfilter : thresholds.filter (fun t => t.geocode = ob.geocode) = [] := by
    rw [List.filter_eq_nil_iff]
    intro t ht
    simp only [decide_eq_true_eq]
    exact hnone t ht
  refine ⟨?_, ?_, ?_⟩
  · unfold evaluateObservedSeverity
    rw [List.flatMap_cons, hfilter]
    rfl
  · unfold evaluateObservedSeverity
    rw [List.flatMap_cons, hfilter]
    rfl
  · intro ts2 o2
    unfold evaluateObservedSeverity
    rw [List.flatMap_cons, List.flatMap_nil, List.append_nil]

/-- Witness for the amended C5 at the concrete counterexample input. -/
theorem C5_missing_threshold_dropped_witness :
    (∀ t ∈ [tC5], t.geocode ≠ oC5.geocode) ∧
    (evaluateObservedSeverity [tC5] [oC5] =
      evaluateObservedSeverity [tC5] [] ∧
     evaluateObservedSeverity [tC5] [oC5] = [] ∧
     ∀ ts2 : List ThresholdRow, ∀ o2 : ObservedRow,
       evaluateObservedSeverity ts2 [o2] =
         (ts2.filter (fun t => t.geocode = o2.geocode)).map
           (fun t => classifyRow t o2)) :=
  ⟨by decide, C5_missing_threshold_dropped [tC5] oC5 [] (by decide)⟩

/-! ### Missing-value estimator (__estimate_missing_observations__): claim C10

The snow-level lookup table used by __estimate_snowfall_value__ is reference
data loaded from disk (get_snow_level), outside src-derivable logic, so the
snowfall estimator enters the embedding as a function parameter; the claim is
proved for every estimator. -/

/-- A raw observation row (FIELDS_OBSERVATION_DATA). -/
structure RawObservation where
  date : Nat
  idema : String
  altitude : ℚ
  minimum_temperature : ℚ
  maximum_temperature : ℚ
  precipitation : ℚ
  wind_speed : ℚ
deriving DecidableEq

/-- An observation row with the derived columns added by
__estimate_missing_observations__ (wind speed already converted). -/
structure EstimatedObservation where
  date : Nat
  idema : String
  altitude : ℚ
  minimum_temperature : ℚ
  maximum_temperature : ℚ
  precipitation : ℚ
  wind_speed : ℚ
  uniform_precipitation_1h : ℚ
  severe_precipitation_1h : ℚ
  extreme_precipitation_1h : ℚ
  uniform_precipitation_12h : ℚ
  severe_precipitation_12h : ℚ
  extreme_precipitation_12h : ℚ
  snowfall_24h : Int
deriving DecidableEq

/-- np.round to the nearest integer, ties to even (IEEE banker's rounding). -/
def roundHalfToEven (x : ℚ) : Int :=
  let f := Int.floor x
  let frac := x - f
  if frac < 1 / 2 then f
  else if 1 / 2 < frac then f + 1
  else if f % 2 = 0 then f else f + 1

/-- np.round(x, 1). -/
def nround1 (x : ℚ) : ℚ := (roundHalfToEven (x * 10) : ℚ) / 10

/-- The per-row computation of __estimate_missing_observations__: the six
derived precipitation estimates (timeframe factors 0.33 and 0.75 for severe,
0.75 and 1.00 for extreme), the estimated snowfall, the zeroing of all six
precipitation estimates where the estimated snowfall is positive, and the
wind-speed unit conversion. -/
def estimateMissingObservations (snowEst : ℚ → ℚ → ℚ → ℚ → Int)
    (o : RawObservation) : EstimatedObservation :=
  let snowfall :=
    snowEst o.precipitation o.minimum_temperature o.maximum_temperature o.altitude
  let base : EstimatedObservation :=
    { date := o.date, idema := o.idema, altitude := o.altitude,
      minimum_temperature := o.minimum_temperature,
      maximum_temperature := o.maximum_temperature,
      precipitation := o.precipitation,
      wind_speed := nround1 (o.wind_speed * 3.6),
      uniform_precipitation_1h := nround1 (o.precipitation * 1 / 24),
      severe_precipitation_1h := nround1 (o.precipitation * 0.33),
      extreme_precipitation_1h := nround1 (o.precipitation * 0.75),
      uniform_precipitation_12h := nround1 (o.precipitation * 12 / 24),
      severe_precipitation_12h := nround1 (o.precipitation * 0.75),
      extreme_precipitation_12h := nround1 (o.precipitation * 1.00),
      snowfall_24h := snowfall }
  if 0 < snowfall then
    { base with
        uniform_precipitation_1h := 0, severe_precipitation_1h := 0,
        extreme_precipitation_1h := 0, uniform_precipitation_12h := 0,
        severe_precipitation_12h := 0, extreme_precipitation_12h := 0 }
  else base

/-- C10.  Whenever the estimated 24-hour snowfall of a row is positive, all
six derived precipitation estimates of that row are zero in the estimator's
output, for any snowfall estimator. -/
theorem C10_snowfall_zeroes_precipitation (snowEst : ℚ → ℚ → ℚ → ℚ → Int)
    (o : RawObservation)
    (hpos : 0 < (estimateMissingObservations snowEst o).snowfall_24h) :
    (estimateMissingObservations snowEst o).uniform_precipitation_1h = 0 ∧
    (estimateMissingObservations snowEst o).severe_precipitation_1h = 0 ∧
    (estimateMissingObservations snowEst o).extreme_precipitation_1h = 0 ∧
    (estimateMissingObservations snowEst o).uniform_precipitation_12h = 0 ∧
    (estimateMissingObservations snowEst o).severe_precipitation_12h = 0 ∧
    (estimateMissingObservations snowEst o).extreme_precipitation_12h = 0 := by
  unfold estimateMissingObservations at hpos ⊢
  by_cases hsnow :
      0 < snowEst o.precipitation o.minimum_temperature o.maximum_temperature o.altitude
  · simp [if_pos hsnow]
  · simp only [if_neg hsnow] at hpos
    exact absurd hpos hsnow

/-- Witness input for C10: any estimator reporting 3 cm of snow. -/
def oC10 : RawObservation :=
  { date := 1, idema := "X123", altitude := 1200, minimum_temperature := -4,
    maximum_temperature := 0, precipitation := 12, wind_speed := 10 }

/-- Witness for C10 at a concrete row and a constant snowfall estimator. -/
theorem C10_snowfall_zeroes_precipitation_witness :
    (0 < (estimateMissingObservations (fun _ _ _ _ => 3) oC10).snowfall_24h) ∧
    ((estimateMissingObservations (fun _ _ _ _ => 3) oC10).uniform_precipitation_1h = 0 ∧
     (estimateMissingObservations (fun _ _ _ _ => 3) oC10).severe_precipitation_1h = 0 ∧
     (estimateMissingObservations (fun _ _ _ _ => 3) oC10).extreme_precipitation_1h = 0 ∧
     (estimateMissingObservations (fun _ _ _ _ => 3) oC10).uniform_precipitation_12h = 0 ∧
     (estimateMissingObservations (fun _ _ _ _ => 3) oC10).severe_precipitation_12h = 0 ∧
     (estimateMissingObservations (fun _ _ _ _ => 3) oC10).extreme_precipitation_12h = 0) :=
  ⟨by decide, C10_snowfall_zeroes_precipitation _ oC10 (by decide)⟩

/-! ### Parameter Expander (__extend_warning_data__): claim C7 -/

/-- A consolidated warning row after the expander's severity mapping: the
severity token has been mapped through MAPPING_SEVERITY_VALUE (a pandas map,
None for unknown tokens). -/
structure ExtendedWarning where
  id : String
  effective : Nat
  description : String
  severity : Option Nat
  param_id : String
  param_name : String
  param_value : Int
  geocode : String
  polygon : String
deriving DecidableEq

/-- The severity mapping applied by __extend_warning_data__ to every row. -/
def mapWarningSeverity (w : WarningRow) : ExtendedWarning :=
  { id := w.id, effective := w.effective, description := w.description,
    severity := severityValue w.severity, param_id := w.param_id,
    param_name := w.param_name, param_value := w.param_value,
    geocode := w.geocode, polygon := w.polygon }

/-- The registered derived-estimate parameter ids with the PR_1H
accumulation window (keys of MAPPING_PARAMETERS). -/
def DERIVED_PR_1H : List String := ["PR_1H.UNIFORME", "PR_1H.SEVERA", "PR_1H.EXTREMA"]

/-- The registered derived-estimate parameter ids with the PR_12H
accumulation window. -/
def DERIVED_PR_12H : List String :=
  ["PR_12H.UNIFORME", "PR_12H.SEVERA", "PR_12H.EXTREMA"]

/-- __extend_warning_data__: map severities to ordinals, copy each PR_1H row
once per derived PR_1H parameter id and each PR_12H row once per derived
PR_12H parameter id (each copy identical except the parameter id), append the
copies, then drop the PR_1H and PR_12H rows. -/
def extendWarningData (ws : List WarningRow) : List ExtendedWarning :=
  let extended := ws.map mapWarningSeverity
  let precipitation_1h := extended.filter (fun w => w.param_id = "PR_1H")
  let precipitation_12h := extended.filter (fun w => w.param_id = "PR_12H")
  let extended := extended ++
    DERIVED_PR_1H.flatMap (fun p => precipitation_1h.map (fun w => { w with param_id := p }))
  let extended := extended ++
    DERIVED_PR_12H.flatMap (fun p => precipitation_12h.map (fun w => { w with param_id := p }))
  (extended.filter (fun w => w.param_id ≠ "PR_1H")).filter (fun w => w.param_id ≠ "PR_12H")

/-- Decomposition of the expander output: the non-precipitation rows (in
input order) followed by the PR_1H copies and the PR_12H copies. -/
theorem extendWarningData_eq (ws : List WarningRow) :
    extendWarningData ws =
      (((ws.map mapWarningSeverity).filter (fun w => w.param_id ≠ "PR_1H")).filter
        (fun w => w.param_id ≠ "PR_12H")) ++
      DERIVED_PR_1H.flatMap (fun p =>
        ((ws.map mapWarningSeverity).filter (fun w => w.param_id = "PR_1H")).map
          (fun w => { w with param_id := p })) ++
      DERIVED_PR_12H.flatMap (fun p =>
        ((ws.map mapWarningSeverity).filter (fun w => w.param_id = "PR_12H")).map
          (fun w => { w with param_id := p })) := by
  unfold extendWarningData
  dsimp only
  rw [List.filter_append, List.filter_append, List.filter_append, List.filter_append]
  have hid1 : ∀ l : List ExtendedWarning,
      ((DERIVED_PR_1H.flatMap (fun p => l.map (fun w => { w with param_id := p }))).filter
          (fun w => w.param_id ≠ "PR_1H")).filter (fun w => w.param_id ≠ "PR_12H") =
        DERIVED_PR_1H.flatMap (fun p => l.map (fun w => { w with param_id := p })) := by
    intro l
    rw [List.filter_eq_self.mpr, List.filter_eq_self.mpr]
    · intro a ha
      rw [List.mem_flatMap] at ha
      obtain ⟨p, hp, ha⟩ := ha
      rw [List.mem_map] at ha
      obtain ⟨w, _, hmap⟩ := ha
      simp only [DERIVED_PR_1H, List.mem_cons, List.not_mem_nil, or_false] at hp
      rcases hp with rfl | rfl | rfl <;> (rw [← hmap]; simp)
    · intro a ha
      rw [List.mem_filter] at ha
      rw [List.mem_flatMap] at ha
      obtain ⟨⟨p, hp, ha⟩, _⟩ := ha
      rw [List.mem_map] at ha
      obtain ⟨w, _, hmap⟩ := ha
      simp only [DERIVED_PR_1H, List.mem_cons, List.not_mem_nil, or_false] at hp
      rcases hp with rfl | rfl | rfl <;> (rw [← hmap]; simp)
  have hid12 : ∀ l : List ExtendedWarning,
      ((DERIVED_PR_12H.flatMap (fun p => l.map (fun w => { w with param_id := p }))).filter
          (fun w => w.param_id ≠ "PR_1H")).filter (fun w => w.param_id ≠ "PR_12H") =
        DERIVED_PR_12H.flatMap (fun p => l.map (fun w => { w with param_id := p })) := by
    intro l
    rw [List.filter_eq_self.mpr, List.filter_eq_self.mpr]
    · intro a ha
      rw [List.mem_flatMap] at ha
      obtain ⟨p, hp, ha⟩ := ha
      rw [List.mem_map] at ha
      obtain ⟨w, _, hmap⟩ := ha
      simp only [DERIVED_PR_12H, List.mem_cons, List.not_mem_nil, or_false] at hp
      rcases hp with rfl | rfl | rfl <;> (rw [← hmap]; simp)
    · intro a ha
      rw [List.mem_filter] at ha
      rw [List.mem_flatMap] at ha
      obtain ⟨⟨p, hp, ha⟩, _⟩ := ha
      rw [List.mem_map] at ha
      obtain ⟨w, _, hmap⟩ := ha
      simp only [DERIVED_PR_12H, List.mem_cons, List.not_mem_nil, or_false] at hp
      rcases hp with rfl | rfl | rfl <;> (rw [← hmap]; simp)
  rw [hid1, hid12]

/-- C7.  The expander output has no PR_1H or PR_12H row; every PR_1H
(respectively PR_12H) input row reappears once per registered derived
parameter id of its window, identical to the severity-mapped row except for
the parameter id; every output row is either a non-precipitation input row or
such a copy; and the output size is exactly the non-precipitation rows plus
three copies per base precipitation row. -/
theorem C7_parameter_expander (ws : List WarningRow) :
    (∀ r ∈ extendWarningData ws, r.param_id ≠ "PR_1H" ∧ r.param_id ≠ "PR_12H") ∧
    (∀ w ∈ ws, w.param_id = "PR_1H" → ∀ p ∈ DERIVED_PR_1H,
      { mapWarningSeverity w with param_id := p } ∈ extendWarningData ws) ∧
    (∀ w ∈ ws, w.param_id = "PR_12H" → ∀ p ∈ DERIVED_PR_12H,
      { mapWarningSeverity w with param_id := p } ∈ extendWarningData ws) ∧
    (∀ r ∈ extendWarningData ws,
      (∃ w ∈ ws, r = mapWarningSeverity w) ∨
      (∃ w ∈ ws, ∃ p,
        ((w.param_id = "PR_1H" ∧ p ∈ DERIVED_PR_1H) ∨
         (w.param_id = "PR_12H" ∧ p ∈ DERIVED_PR_12H)) ∧
        r = { mapWarningSeverity w with param_id := p })) ∧
    (extendWarningData ws).length =
      (((ws.map mapWarningSeverity).filter (fun w => w.param_id ≠ "PR_1H")).filter
        (fun w => w.param_id ≠ "PR_12H")).length +
      3 * ((ws.map mapWarningSeverity).filter (fun w => w.param_id = "PR_1H")).length +
      3 * ((ws.map mapWarningSeverity).filter (fun w => w.param_id = "PR_12H")).length := by
  rw [extendWarningData_eq]
  refine ⟨?_, ?_, ?_, ?_, ?_⟩
  · intro r hr
    simp only [List.mem_append, List.mem_flatMap, List.mem_map, List.mem_filter,
      decide_eq_true_eq] at hr
    rcases hr with (⟨⟨_, h1⟩, h12⟩ | ⟨p, hp, w, _, hmap⟩) | ⟨p, hp, w, _, hmap⟩
    · exact ⟨h1, h12⟩
    · simp only [DERIVED_PR_1H, List.mem_cons, List.not_mem_nil, or_false] at hp
      rcases hp with rfl | rfl | rfl <;> (rw [← hmap]; exact ⟨by simp, by simp⟩)
    · simp only [DERIVED_PR_12H, List.mem_cons, List.not_mem_nil, or_false] at hp
      rcases hp with rfl | rfl | rfl <;> (rw [← hmap]; exact ⟨by simp, by simp⟩)
  · intro w hw hwp p hp
    refine List.mem_append.mpr (Or.inl (List.mem_append.mpr (Or.inr ?_)))
    rw [List.mem_flatMap]
    refine ⟨p, hp, ?_⟩
    rw [List.mem_map]
    exact ⟨mapWarningSeverity w,
      List.mem_filter.mpr ⟨List.mem_map_of_mem mapWarningSeverity hw,
        decide_eq_true hwp⟩, rfl⟩
  · intro w hw hwp p hp
    refine List.mem_append.mpr (Or.inr ?_)
    rw [List.mem_flatMap]
    refine ⟨p, hp, ?_⟩
    rw [List.mem_map]
    exact ⟨mapWarningSeverity w,
      List.mem_filter.mpr ⟨List.mem_map_of_mem mapWarningSeverity hw,
        decide_eq_true hwp⟩, rfl⟩
  · intro r hr
    simp only [List.mem_append, List.mem_flatMap, List.mem_map, List.mem_filter,
      decide_eq_true_eq] at hr
    rcases hr with (⟨⟨hmem, _⟩, _⟩ | ⟨p, hp, w2, ⟨hw2m, hw2p⟩, hmap⟩) |
      ⟨p, hp, w2, ⟨hw2m, hw2p⟩, hmap⟩
    · obtain ⟨w, hw, hmapw⟩ := hmem
      exact Or.inl ⟨w, hw, hmapw.symm⟩
    · obtain ⟨w, hw, hmapw⟩ := hw2m
      refine Or.inr ⟨w, hw, p, Or.inl ⟨by rw [← hmapw] at hw2p; exact hw2p, hp⟩, ?_⟩
      rw [← hmap, ← hmapw]
    · obtain ⟨w, hw, hmapw⟩ := hw2m
      refine Or.inr ⟨w, hw, p, Or.inr ⟨by rw [← hmapw] at hw2p; exact hw2p, hp⟩, ?_⟩
      rw [← hmap, ← hmapw]
  · simp only [List.length_append, DERIVED_PR_1H, DERIVED_PR_12H, List.flatMap_cons,
      List.flatMap_nil, List.append_nil, List.length_map]
    omega

/-- Witness input for C7: one PR_1H warning, one PR_12H warning, one
temperature warning. -/
def wsC7 : List WarningRow :=
  [{ id := "a", effective := 1, description := "", severity := "amarillo",
     param_id := "PR_1H", param_name := "", param_value := 20, geocode := "61",
     polygon := "" },
   { id := "b", effective := 1, description := "", severity := "naranja",
     param_id := "PR_12H", param_name := "", param_value := 100, geocode := "61",
     polygon := "" },
   { id := "c", effective := 1, description := "", severity := "rojo",
     param_id := "AT", param_name := "", param_value := 42, geocode := "61",
     polygon := "" }]

/-- Witness for C7 at the concrete three-row input. -/
theorem C7_parameter_expander_witness :
    ((∀ r ∈ extendWarningData wsC7, r.param_id ≠ "PR_1H" ∧ r.param_id ≠ "PR_12H") ∧
     (∀ w ∈ wsC7, w.param_id = "PR_1H" → ∀ p ∈ DERIVED_PR_1H,
       { mapWarningSeverity w with param_id := p } ∈ extendWarningData wsC7) ∧
     (∀ w ∈ wsC7, w.param_id = "PR_12H" → ∀ p ∈ DERIVED_PR_12H,
       { mapWarningSeverity w with param_id := p } ∈ extendWarningData wsC7) ∧
     (∀ r ∈ extendWarningData wsC7,
       (∃ w ∈ wsC7, r = mapWarningSeverity w) ∨
       (∃ w ∈ wsC7, ∃ p,
         ((w.param_id = "PR_1H" ∧ p ∈ DERIVED_PR_1H) ∨
          (w.param_id = "PR_12H" ∧ p ∈ DERIVED_PR_12H)) ∧
         r = { mapWarningSeverity w with param_id := p })) ∧
     (extendWarningData wsC7).length =
       (((wsC7.map mapWarningSeverity).filter (fun w => w.param_id ≠ "PR_1H")).filter
         (fun w => w.param_id ≠ "PR_12H")).length +
       3 * ((wsC7.map mapWarningSeverity).filter (fun w => w.param_id = "PR_1H")).length +
       3 * ((wsC7.map mapWarningSeverity).filter (fun w => w.param_id = "PR_12H")).length) ∧
    (extendWarningData wsC7).length = 7 :=
  ⟨C7_parameter_expander wsC7, by decide⟩

/-! ### Station Locator (event_data_commons.py, geolocate_stations): claim C4

Geometry (point-in-polygon, centroid, distance) is out of scope per the spec
(assumed primitives), so the three geometric operations enter the embedding as
function parameters.  The decisive behaviour is in pure Python/pandas control
flow: the containment pass assigns through DataFrame.apply (effective), while
the nearest-centroid fallback loop iterates with DataFrame.iterrows and
assigns into the per-row Series copy that iterrows yields, which never writes
back into the frame — the computed fallback geocode is discarded. -/

structure StationRow where
  idema : String
  name : String
  province : String
  latitude : ℚ
  longitude : ℚ
  altitude : ℚ
  geocode : Option String
deriving DecidableEq

structure GeocodeRegion where
  geocode : String
  region : String
  area : String
  province : String
  polygon : List (ℚ × ℚ)
deriving DecidableEq

/-- The containment pass: the first region (in input order) whose polygon
contains the station point, if any. -/
def locateByContainment (contains : List (ℚ × ℚ) → ℚ × ℚ → Bool)
    (geocodes : List GeocodeRegion) (s : StationRow) : StationRow :=
  let found := geocodes.find? (fun a => contains a.polygon (s.latitude, s.longitude))
  { s with geocode := found.map (fun a => a.geocode) }

/-- The fallback computation performed inside the iterrows loop body: restrict
to regions of the station's province, else to regions whose region name is the
station's province, else all regions, and take the geocode of the candidate
with the smallest centroid distance. -/
def fallbackGeocode (centroid : List (ℚ × ℚ) → ℚ × ℚ)
    (dist : ℚ × ℚ → ℚ × ℚ → ℚ) (geocodes : List GeocodeRegion)
    (s : StationRow) : Option String :=
  let subset := geocodes.filter (fun a => a.province = s.province)
  let subset := if subset.isEmpty
    then geocodes.filter (fun a => a.region = s.province) else subset
  let subset := if subset.isEmpty then geocodes else subset
  ((sortByKey (fun a => dist (centroid a.polygon) (s.latitude, s.longitude))
    subset).head?).map (fun a => a.geocode)

/-- geolocate_stations.  The containment pass mutates the stations frame; the
fallback loop computes `fallbackGeocode` for stations left without a geocode
but stores it only in the iterrows row copy, so the returned frame carries
only the containment result. -/
def geolocateStations (contains : List (ℚ × ℚ) → ℚ × ℚ → Bool)
    (centroid : List (ℚ × ℚ) → ℚ × ℚ)
    (dist : ℚ × ℚ → ℚ × ℚ → ℚ) (geocodes : List GeocodeRegion)
    (stations : List StationRow) : List StationRow :=
  let stations := stations.map (locateByContainment contains geocodes)
  let _discardedRowCopies := stations.map (fun stat =>
    if stat.geocode = none
      then { stat with geocode := fallbackGeocode centroid dist geocodes stat }
      else stat)
  stations

/-- C4 inputs: region 12 in province P, and a station of province P whose
point no polygon contains (the containment primitive returns false
everywhere).  Distance is squared Euclidean, a representative primitive. -/
def regionC4 : GeocodeRegion :=
  { geocode := "12", region := "R", area := "A", province := "P",
    polygon := [(0, 0), (0, 1), (1, 0)] }

def stationC4 : StationRow :=
  { idema := "X001", name := "st", province := "P", latitude := 5, longitude := 5,
    altitude := 100, geocode := none }

def centroidC4 (poly : List (ℚ × ℚ)) : ℚ × ℚ :=
  ((poly.map Prod.fst).sum / poly.length, (poly.map Prod.snd).sum / poly.length)

def distC4 (p q : ℚ × ℚ) : ℚ := (p.1 - q.1) ^ 2 + (p.2 - q.2) ^ 2

/-- C4.  The spec says a station contained in no polygon is assigned the
geocode of the nearest candidate region centroid (here region 12, the only
candidate sharing the station's province).  The fallback loop does compute
geocode 12 for this station, but writes it into the iterrows copy; the
geolocated output still carries no geocode.  This contradicts the code's own
docstring ("assigns a geocode to each station") and leaves the fallback code
without effect, so the code, not the claim, is wrong. -/
theorem C4_locator_fallback_lost :
    geolocateStations (fun _ _ => false) centroidC4 distC4 [regionC4] [stationC4] =
      [stationC4] ∧
    fallbackGeocode centroidC4 distC4 [regionC4] stationC4 = some "12" ∧
    stationC4.geocode = none := by
  refine ⟨?_, ?_, rfl⟩
  · rfl
  · rfl

/-! ### Discretization and reconciliation merge (__discretize_observed_data__,
__summarize_observed_data__): claims C3, C6, C9

__discretize_observed_data__ unpivots each evaluated observation row into one
station row per parameter (excluding PR, PR_1H, PR_12H), then left-merges with
the extended warnings on (date = effective, geocode, param_id).
__complete_empty_fields__ only fills the region/area/province/polygon label
columns from the geocode table and is the identity on every field modelled
here. -/

/-- The parameters discretized into station rows: MAPPING_PARAMETERS keys
without PR, PR_1H and PR_12H. -/
def DISCRETIZED_PARAMS : List String :=
  ["BT", "AT", "PR_1H.UNIFORME", "PR_12H.UNIFORME", "PR_1H.SEVERA",
   "PR_12H.SEVERA", "PR_1H.EXTREMA", "PR_12H.EXTREMA", "NE", "VI"]

/-- The value column read for a parameter (MAPPING_PARAMETERS id). -/
def paramValueColumn (p : String) (e : EvaluatedRow) : ℚ :=
  if p = "BT" then e.minimum_temperature
  else if p = "AT" then e.maximum_temperature
  else if p = "PR_1H.UNIFORME" then e.uniform_precipitation_1h
  else if p = "PR_12H.UNIFORME" then e.uniform_precipitation_12h
  else if p = "PR_1H.SEVERA" then e.severe_precipitation_1h
  else if p = "PR_12H.SEVERA" then e.severe_precipitation_12h
  else if p = "PR_1H.EXTREMA" then e.extreme_precipitation_1h
  else if p = "PR_12H.EXTREMA" then e.extreme_precipitation_12h
  else if p = "NE" then e.snowfall_24h
  else e.wind_speed

/-- The severity column read for a parameter. -/
def paramSeverityColumn (p : String) (e : EvaluatedRow) : Nat :=
  if p = "BT" then e.minimum_temperature_severity
  else if p = "AT" then e.maximum_temperature_severity
  else if p = "PR_1H.UNIFORME" then e.uniform_precipitation_1h_severity
  else if p = "PR_12H.UNIFORME" then e.uniform_precipitation_12h_severity
  else if p = "PR_1H.SEVERA" then e.severe_precipitation_1h_severity
  else if p = "PR_12H.SEVERA" then e.severe_precipitation_12h_severity
  else if p = "PR_1H.EXTREMA" then e.extreme_precipitation_1h_severity
  else if p = "PR_12H.EXTREMA" then e.extreme_precipitation_12h_severity
  else if p = "NE" then e.snowfall_24h_severity
  else e.wind_speed_severity

/-- One unpivoted station/parameter row. -/
structure DiscretizedRow where
  date : Nat
  idema : String
  name : String
  geocode : String
  province : String
  latitude : ℚ
  longitude : ℚ
  altitude : ℚ
  param_id : String
  station_severity : Nat
  station_value : ℚ
deriving DecidableEq

/-- The unpivot loop of __discretize_observed_data__. -/
def discretizeObservedData (evaluated : List EvaluatedRow) : List DiscretizedRow :=
  DISCRETIZED_PARAMS.flatMap (fun p => evaluated.map (fun e =>
    { date := e.date, idema := e.idema, name := e.name, geocode := e.geocode,
      province := e.province, latitude := e.latitude, longitude := e.longitude,
      altitude := e.altitude, param_id := p,
      station_severity := paramSeverityColumn p e,
      station_value := paramValueColumn p e }))

/-- A prepared analysis row (the modelled fields of __FIELDS_PROCESSED_DATA__
after the discretize merge: predicted severity and value come from the left
join and may be absent; region severity and value are placeholders until
__summarize_observed_data__ replaces them). -/
structure MergedRow where
  date : Nat
  geocode : String
  province : String
  idema : String
  name : String
  latitude : ℚ
  longitude : ℚ
  altitude : ℚ
  param_id : String
  predicted_severity : Option Nat
  predicted_value : Option Int
  observed_severity : Nat
  observed_value : ℚ
deriving DecidableEq

def warningMatches (w : ExtendedWarning) (d : DiscretizedRow) : Bool :=
  w.effective = d.date ∧ w.geocode = d.geocode ∧ w.param_id = d.param_id

/-- A merged row for a discretized row without matching warning: predicted
fields absent. -/
def mergedOfUnmatched (d : DiscretizedRow) : MergedRow :=
  { date := d.date, geocode := d.geocode, province := d.province,
    idema := d.idema, name := d.name, latitude := d.latitude,
    longitude := d.longitude, altitude := d.altitude, param_id := d.param_id,
    predicted_severity := none, predicted_value := none,
    observed_severity := d.station_severity,
    observed_value := d.station_value }

/-- A merged row for a discretized row joined with one matching warning. -/
def mergedOfMatch (d : DiscretizedRow) (w : ExtendedWarning) : MergedRow :=
  { date := d.date, geocode := d.geocode, province := d.province,
    idema := d.idema, name := d.name, latitude := d.latitude,
    longitude := d.longitude, altitude := d.altitude, param_id := d.param_id,
    predicted_severity := w.severity, predicted_value := some w.param_value,
    observed_severity := d.station_severity,
    observed_value := d.station_value }

/-- The left merge of __discretize_observed_data__ (how="left" on
date = effective, geocode, param_id): every discretized row is kept, once per
matching warning or once with absent predicted fields when no warning
matches; warning rows without observations contribute nothing. -/
def discretizeMerge (discretized : List DiscretizedRow)
    (warnings : List ExtendedWarning) : List MergedRow :=
  discretized.flatMap (fun d =>
    let ms := warnings.filter (fun w => warningMatches w d)
    if ms.isEmpty then [mergedOfUnmatched d]
    else ms.map (mergedOfMatch d))

/-! ### Regional Aggregator (__summarize_observed_data__) -/

/-- groupby key (date, param_id, geocode); strings keyed by their character
lists as for the consolidator. -/
abbrev SitKey := Nat ×ₗ List Char ×ₗ List Char

def sitKeyOf (r : MergedRow) : SitKey :=
  toLex (r.date, toLex (r.param_id.data, r.geocode.data))

/-- Sort key severity desc, value desc (all parameters except BT). -/
abbrev DescTie := Natᵒᵈ ×ₗ ℚᵒᵈ

def descTie (r : MergedRow) : DescTie :=
  toLex (OrderDual.toDual r.observed_severity, OrderDual.toDual r.observed_value)

/-- Sort key severity desc, value asc (the BT rows). -/
abbrev AscTie := Natᵒᵈ ×ₗ ℚ

def ascTie (r : MergedRow) : AscTie :=
  toLex (OrderDual.toDual r.observed_severity, r.observed_value)

/-- One aggregated regional situation row. -/
structure SituationRow where
  date : Nat
  param_id : String
  geocode : String
  region_severity : Nat
  region_value : ℚ
deriving DecidableEq

def sitKeyOfS (s : SituationRow) : SitKey :=
  toLex (s.date, toLex (s.param_id.data, s.geocode.data))

/-- One sort_values + groupby + agg-first pass: sort by the tie key, group by
(date, param_id, geocode) (groups in ascending key order, as pandas groupby),
and take the first row of each group. -/
def aggFirstBy {τ : Type} [LinearOrder τ] (tie : MergedRow → τ)
    (l : List MergedRow) : List SituationRow :=
  let sorted := sortByKey tie l
  (sortByKey (fun k => k) ((l.map sitKeyOf).dedup)).filterMap (fun k =>
    ((sorted.filter (fun r => sitKeyOf r = k)).head?).map (fun h =>
      { date := h.date, param_id := h.param_id, geocode := h.geocode,
        region_severity := h.observed_severity,
        region_value := h.observed_value }))

/-- The grouped situations of __summarize_observed_data__: the non-BT rows
aggregated with the (severity desc, value desc) sort, concatenated with the
BT rows aggregated with the (severity desc, value asc) sort. -/
def summarizeSituations (l : List MergedRow) : List SituationRow :=
  aggFirstBy descTie (l.filter (fun r => r.param_id ≠ "BT")) ++
  aggFirstBy ascTie (l.filter (fun r => r.param_id = "BT"))

/-- MAPPING_PARAMETER_DESCRIPTION as a partial map. -/
def parameterDescription (p : String) : Option String :=
  if p = "BT" then some "Temperatura mínima"
  else if p = "AT" then some "Temperatura máxima"
  else if p = "PR" then some "Precipitación"
  else if p = "PR_1H" then some "Precipitación acumulada en una hora"
  else if p = "PR_12H" then some "Precipitación acumulada en 12 horas"
  else if p = "PR_1H.UNIFORME" then some "Precipitación acumulada en una hora (uniforme)"
  else if p = "PR_12H.UNIFORME" then some "Precipitación acumulada en 12 horas (uniforme)"
  else if p = "PR_1H.SEVERA" then some "Precipitación acumulada en una hora (severa)"
  else if p = "PR_12H.SEVERA" then some "Precipitación acumulada en 12 horas (severa)"
  else if p = "PR_1H.EXTREMA" then some "Precipitación acumulada en una hora (extrema)"
  else if p = "PR_12H.EXTREMA" then some "Precipitación acumulada en 12 horas (extrema)"
  else if p = "NE" then some "Nieve acumulada en 24 horas"
  else if p = "VI" then some "Racha de viento máxima"
  else none

/-- A finished analysis record: severities coerced to ordinals with 0 for
absent values. -/
structure FinalRow where
  date : Nat
  geocode : String
  province : String
  idema : String
  name : String
  latitude : ℚ
  longitude : ℚ
  altitude : ℚ
  param_id : String
  param_name : Option String
  predicted_severity : Nat
  predicted_value : Option Int
  region_severity : Nat
  region_value : Option ℚ
  observed_severity : Nat
  observed_value : ℚ
deriving DecidableEq

def mkFinalRow (r : MergedRow) (os : Option SituationRow) : FinalRow :=
  { date := r.date, geocode := r.geocode, province := r.province,
    idema := r.idema, name := r.name, latitude := r.latitude,
    longitude := r.longitude, altitude := r.altitude, param_id := r.param_id,
    param_name := parameterDescription r.param_id,
    predicted_severity := r.predicted_severity.getD 0,
    predicted_value := r.predicted_value,
    region_severity := (os.map (fun s => s.region_severity)).getD 0,
    region_value := os.map (fun s => s.region_value),
    observed_severity := r.observed_severity,
    observed_value := r.observed_value }

/-- The rest of __summarize_observed_data__: left-merge the situations back
onto the prepared rows on (date, param_id, geocode), fill absent predicted
and regional severities with 0 and coerce to integers, and fill param_name
from MAPPING_PARAMETER_DESCRIPTION. -/
def summarizeObservedData (prepared : List MergedRow) : List FinalRow :=
  let situations := summarizeSituations prepared
  prepared.flatMap (fun r =>
    let ms := situations.filter (fun s =>
      s.date = r.date ∧ s.param_id = r.param_id ∧ s.geocode = r.geocode)
    if ms.isEmpty then [mkFinalRow r none]
    else ms.map (fun s => mkFinalRow r (some s)))

/-! ### Regional Aggregator correctness: claim C3 -/

theorem sitKey_eq_iff (d1 d2 : Nat) (p1 g1 p2 g2 : String) :
    (toLex (d1, toLex (p1.data, g1.data)) : SitKey) =
      toLex (d2, toLex (p2.data, g2.data)) ↔ (d1 = d2 ∧ p1 = p2 ∧ g1 = g2) := by
  rw [toLex_inj, Prod.mk.injEq, toLex_inj, Prod.mk.injEq]
  constructor
  · rintro ⟨hd, hp, hg⟩
    exact ⟨hd, String.ext hp, String.ext hg⟩
  · rintro ⟨rfl, rfl, rfl⟩
    exact ⟨rfl, rfl, rfl⟩

theorem sitKeyOf_eq_iff (a b : MergedRow) :
    sitKeyOf a = sitKeyOf b ↔
      (a.date = b.date ∧ a.param_id = b.param_id ∧ a.geocode = b.geocode) :=
  sitKey_eq_iff a.date b.date a.param_id a.geocode b.param_id b.geocode

theorem sitKeyOf_eq_sitKeyOfS_iff (a : MergedRow) (s : SituationRow) :
    sitKeyOf a = sitKeyOfS s ↔
      (a.date = s.date ∧ a.param_id = s.param_id ∧ a.geocode = s.geocode) :=
  sitKey_eq_iff a.date s.date a.param_id a.geocode s.param_id s.geocode

theorem descTie_le_iff (a b : MergedRow) :
    descTie a ≤ descTie b ↔
      (b.observed_severity < a.observed_severity ∨
        (a.observed_severity = b.observed_severity ∧
          b.observed_value ≤ a.observed_value)) := by
  unfold descTie
  rw [Prod.Lex.le_iff]
  simp only [OrderDual.toDual_lt_toDual, OrderDual.toDual_le_toDual]
  constructor
  · rintro (h | ⟨heq, hle⟩)
    · exact Or.inl h
    · exact Or.inr ⟨OrderDual.toDual_inj.mp heq, hle⟩
  · rintro (h | ⟨heq, hle⟩)
    · exact Or.inl h
    · exact Or.inr ⟨OrderDual.toDual_inj.mpr heq, hle⟩

theorem ascTie_le_iff (a b : MergedRow) :
    ascTie a ≤ ascTie b ↔
      (b.observed_severity < a.observed_severity ∨
        (a.observed_severity = b.observed_severity ∧
          a.observed_value ≤ b.observed_value)) := by
  unfold ascTie
  rw [Prod.Lex.le_iff]
  simp only [OrderDual.toDual_lt_toDual]
  constructor
  · rintro (h | ⟨heq, hle⟩)
    · exact Or.inl h
    · exact Or.inr ⟨OrderDual.toDual_inj.mp heq, hle⟩
  · rintro (h | ⟨heq, hle⟩)
    · exact Or.inl h
    · exact Or.inr ⟨OrderDual.toDual_inj.mpr heq, hle⟩

/-- Every output row of one agg-first pass comes from a group member that
minimizes the tie key over its group. -/
theorem aggFirstBy_mem_spec {τ : Type} [LinearOrder τ] (tie : MergedRow → τ)
    (l : List MergedRow) (s : SituationRow) (hs : s ∈ aggFirstBy tie l) :
    ∃ h ∈ l, sitKeyOf h = sitKeyOfS s ∧
      h.observed_severity = s.region_severity ∧
      h.observed_value = s.region_value ∧
      ∀ x ∈ l, sitKeyOf x = sitKeyOf h → tie h ≤ tie x := by
  unfold aggFirstBy at hs
  rw [List.mem_filterMap] at hs
  obtain ⟨k, _, hgk⟩ := hs
  rw [Option.map_eq_some'] at hgk
  obtain ⟨h, hh, hmk⟩ := hgk
  have hspec := head_filter_sort tie (fun r => decide (sitKeyOf r = k)) l h hh
  obtain ⟨⟨hmem, hph⟩, hmin⟩ := hspec
  have hkey : sitKeyOf h = k := of_decide_eq_true hph
  refine ⟨h, hmem, ?_, ?_, ?_, ?_⟩
  · rw [← hmk]; rfl
  · rw [← hmk]
  · rw [← hmk]
  · intro x hx hkx
    exact hmin x hx (decide_eq_true (by rw [hkx, hkey]))

/-- The keys of one agg-first pass are exactly the distinct group keys of its
input, in ascending order. -/
theorem aggFirstBy_keys {τ : Type} [LinearOrder τ] (tie : MergedRow → τ)
    (l : List MergedRow) :
    (aggFirstBy tie l).map sitKeyOfS =
      sortByKey (fun k => k) ((l.map sitKeyOf).dedup) := by
  unfold aggFirstBy
  apply filterMap_keys
  intro k hk
  have hk2 : k ∈ l.map sitKeyOf := by
    have := ((sortByKey_perm (fun k : SitKey => k) ((l.map sitKeyOf).dedup)).mem_iff).mp hk
    exact List.mem_dedup.mp this
  rw [List.mem_map] at hk2
  obtain ⟨x, hx, hxk⟩ := hk2
  obtain ⟨h, hh⟩ := head_filter_sort_isSome tie (fun r => decide (sitKeyOf r = k)) l x hx
    (decide_eq_true hxk)
  refine ⟨_, by rw [hh]; rfl, ?_⟩
  have hspec := head_filter_sort tie (fun r => decide (sitKeyOf r = k)) l h hh
  exact of_decide_eq_true hspec.1.2

theorem aggFirstBy_keys_mem {τ : Type} [LinearOrder τ] (tie : MergedRow → τ)
    (l : List MergedRow) (k : SitKey) :
    k ∈ (aggFirstBy tie l).map sitKeyOfS ↔ k ∈ l.map sitKeyOf := by
  rw [aggFirstBy_keys]
  rw [(sortByKey_perm (fun k : SitKey => k) ((l.map sitKeyOf).dedup)).mem_iff]
  exact List.mem_dedup

theorem aggFirstBy_keys_nodup {τ : Type} [LinearOrder τ] (tie : MergedRow → τ)
    (l : List MergedRow) : ((aggFirstBy tie l).map sitKeyOfS).Nodup := by
  rw [aggFirstBy_keys]
  exact ((sortByKey_perm (fun k : SitKey => k)
    ((l.map sitKeyOf).dedup)).nodup_iff).mpr (List.nodup_dedup _)

/-- C3.  The aggregator emits exactly one row per (date, geocode, parameter)
group of its input; the row's severity is attained by a group member together
with its value, every group member's severity is at most the emitted
severity, and among members attaining it the emitted value is the maximum —
minimum for the minimum-temperature parameter BT. -/
theorem C3_regional_aggregator (l : List MergedRow) :
    ((summarizeSituations l).map sitKeyOfS).Nodup ∧
    (∀ k, k ∈ (summarizeSituations l).map sitKeyOfS ↔ k ∈ l.map sitKeyOf) ∧
    (∀ s ∈ summarizeSituations l,
      (∃ r ∈ l, sitKeyOf r = sitKeyOfS s ∧
        r.observed_severity = s.region_severity ∧
        r.observed_value = s.region_value) ∧
      ∀ r ∈ l, sitKeyOf r = sitKeyOfS s →
        (r.observed_severity ≤ s.region_severity ∧
         (r.observed_severity = s.region_severity →
           (if s.param_id = "BT" then s.region_value ≤ r.observed_value
            else r.observed_value ≤ s.region_value)))) := by
  have hdesc := fun s hs => aggFirstBy_mem_spec descTie
    (l.filter (fun r => r.param_id ≠ "BT")) s hs
  have hasc := fun s hs => aggFirstBy_mem_spec ascTie
    (l.filter (fun r => r.param_id = "BT")) s hs
  refine ⟨?_, ?_, ?_⟩
  · unfold summarizeSituations
    rw [List.map_append]
    refine List.Nodup.append (aggFirstBy_keys_nodup _ _) (aggFirstBy_keys_nodup _ _) ?_
    intro k hk1 hk2
    rw [aggFirstBy_keys_mem] at hk1 hk2
    rw [List.mem_map] at hk1 hk2
    obtain ⟨r1, hr1, hk1⟩ := hk1
    obtain ⟨r2, hr2, hk2⟩ := hk2
    rw [List.mem_filter, decide_eq_true_eq] at hr1 hr2
    have hkk : sitKeyOf r1 = sitKeyOf r2 := by rw [hk1, hk2]
    rw [sitKeyOf_eq_iff] at hkk
    exact hr1.2 (hkk.2.1.trans hr2.2)
  · intro k
    unfold summarizeSituations
    rw [List.map_append, List.mem_append, aggFirstBy_keys_mem, aggFirstBy_keys_mem]
    constructor
    · rintro (hk | hk) <;>
        (rw [List.mem_map] at hk ⊢
         obtain ⟨r, hr, hrk⟩ := hk
         rw [List.mem_filter] at hr
         exact ⟨r, hr.1, hrk⟩)
    · intro hk
      rw [List.mem_map] at hk
      obtain ⟨r, hr, hrk⟩ := hk
      by_cases hbt : r.param_id = "BT"
      · refine Or.inr ?_
        rw [List.mem_map]
        exact ⟨r, List.mem_filter.mpr ⟨hr, decide_eq_true hbt⟩, hrk⟩
      · refine Or.inl ?_
        rw [List.mem_map]
        exact ⟨r, List.mem_filter.mpr ⟨hr, decide_eq_true hbt⟩, hrk⟩
  · intro s hs
    unfold summarizeSituations at hs
    rw [List.mem_append] at hs
    rcases hs with hs | hs
    · obtain ⟨h, hmem, hkey, hsev, hval, hmin⟩ := hdesc s hs
      rw [List.mem_filter, decide_eq_true_eq] at hmem
      have hparam : h.param_id = s.param_id :=
        ((sitKeyOf_eq_sitKeyOfS_iff h s).mp hkey).2.1
      have hsbt : s.param_id ≠ "BT" := by rw [← hparam]; exact hmem.2
      refine ⟨⟨h, hmem.1, hkey, hsev, hval⟩, ?_⟩
      intro r hr hrk
      have hrparam : r.param_id = s.param_id :=
        ((sitKeyOf_eq_sitKeyOfS_iff r s).mp hrk).2.1
      have hrfilter : r ∈ l.filter (fun r => r.param_id ≠ "BT") :=
        List.mem_filter.mpr ⟨hr, decide_eq_true (by rw [hrparam]; exact hsbt)⟩
      have hle := hmin r hrfilter (by rw [hrk, hkey])
      rw [descTie_le_iff] at hle
      rw [if_neg hsbt]
      constructor
      · rcases hle with hlt | ⟨heq, _⟩
        · rw [← hsev]; exact le_of_lt hlt
        · rw [← hsev, heq]
      · intro hreq
        rcases hle with hlt | ⟨_, hvle⟩
        · rw [hreq, ← hsev] at hlt
          exact absurd hlt (lt_irrefl _)
        · rw [← hval]; exact hvle
    · obtain ⟨h, hmem, hkey, hsev, hval, hmin⟩ := hasc s hs
      rw [List.mem_filter, decide_eq_true_eq] at hmem
      have hparam : h.param_id = s.param_id :=
        ((sitKeyOf_eq_sitKeyOfS_iff h s).mp hkey).2.1
      have hsbt : s.param_id = "BT" := by rw [← hparam]; exact hmem.2
      refine ⟨⟨h, hmem.1, hkey, hsev, hval⟩, ?_⟩
      intro r hr hrk
      have hrparam : r.param_id = s.param_id :=
        ((sitKeyOf_eq_sitKeyOfS_iff r s).mp hrk).2.1
      have hrfilter : r ∈ l.filter (fun r => r.param_id = "BT") :=
        List.mem_filter.mpr ⟨hr, decide_eq_true (by rw [hrparam]; exact hsbt)⟩
      have hle := hmin r hrfilter (by rw [hrk, hkey])
      rw [ascTie_le_iff] at hle
      rw [if_pos hsbt]
      constructor
      · rcases hle with hlt | ⟨heq, _⟩
        · rw [← hsev]; exact le_of_lt hlt
        · rw [← hsev, heq]
      · intro hreq
        rcases hle with hlt | ⟨_, hvle⟩
        · rw [hreq, ← hsev] at hlt
          exact absurd hlt (lt_irrefl _)
        · rw [← hval]; exact hvle

/-- Scenario D rows: three stations in geocode 34 with minimum-temperature
severities 1, 2, 2 and values -11, -9, -13 on the same day. -/
def rD1 : MergedRow :=
  { date := 1, geocode := "34", province := "p", idema := "S1", name := "a",
    latitude := 0, longitude := 0, altitude := 0, param_id := "BT",
    predicted_severity := none, predicted_value := none,
    observed_severity := 1, observed_value := -11 }

def rD2 : MergedRow :=
  { rD1 with idema := "S2", name := "b", observed_severity := 2, observed_value := -9 }

def rD3 : MergedRow :=
  { rD1 with idema := "S3", name := "c", observed_severity := 2, observed_value := -13 }

/-- Witness for C3: scenario D aggregates to severity 2 with value -13
(min-wins tie-break for BT). -/
theorem C3_regional_aggregator_witness :
    (((summarizeSituations [rD1, rD2, rD3]).map sitKeyOfS).Nodup ∧
     (∀ k, k ∈ (summarizeSituations [rD1, rD2, rD3]).map sitKeyOfS ↔
        k ∈ [rD1, rD2, rD3].map sitKeyOf) ∧
     (∀ s ∈ summarizeSituations [rD1, rD2, rD3],
       (∃ r ∈ [rD1, rD2, rD3], sitKeyOf r = sitKeyOfS s ∧
         r.observed_severity = s.region_severity ∧
         r.observed_value = s.region_value) ∧
       ∀ r ∈ [rD1, rD2, rD3], sitKeyOf r = sitKeyOfS s →
         (r.observed_severity ≤ s.region_severity ∧
          (r.observed_severity = s.region_severity →
            (if s.param_id = "BT" then s.region_value ≤ r.observed_value
             else r.observed_value ≤ s.region_value))))) ∧
    summarizeSituations [rD1, rD2, rD3] =
      [{ date := 1, param_id := "BT", geocode := "34", region_severity := 2,
         region_value := -13 }] :=
  ⟨C3_regional_aggregator [rD1, rD2, rD3], by decide⟩

/-! ### Reconciliation Merger: claim C6 -/

/-- Every discretized observation row keeps at least one merged row with its
key. -/
theorem discretizeMerge_mem (dis : List DiscretizedRow) (ws : List ExtendedWarning)
    (d : DiscretizedRow) (hd : d ∈ dis) :
    ∃ r ∈ discretizeMerge dis ws,
      r.date = d.date ∧ r.geocode = d.geocode ∧ r.param_id = d.param_id := by
  unfold discretizeMerge
  rcases hms : (ws.filter (fun w => warningMatches w d)).isEmpty with _ | _
  · obtain ⟨w, hw⟩ := List.exists_mem_of_ne_nil
      (ws.filter (fun w => warningMatches w d)) (fun hnil => by
        rw [hnil] at hms; simp at hms)
    refine ⟨mergedOfMatch d w, ?_, rfl, rfl, rfl⟩
    rw [List.mem_flatMap]
    refine ⟨d, hd, ?_⟩
    dsimp only
    rw [hms]
    simp only [Bool.false_eq_true, if_false]
    exact List.mem_map_of_mem _ hw
  · refine ⟨mergedOfUnmatched d, ?_, rfl, rfl, rfl⟩
    rw [List.mem_flatMap]
    refine ⟨d, hd, ?_⟩
    dsimp only
    rw [hms]
    simp only [if_true]
    exact List.mem_singleton.mpr rfl

/-- Every merged row either has no predicted severity or takes it from a
warning matching its key. -/
theorem discretizeMerge_pred (dis : List DiscretizedRow) (ws : List ExtendedWarning)
    (r : MergedRow) (hr : r ∈ discretizeMerge dis ws) :
    r.predicted_severity = none ∨
      ∃ w ∈ ws, w.effective = r.date ∧ w.geocode = r.geocode ∧
        w.param_id = r.param_id ∧ r.predicted_severity = w.severity := by
  unfold discretizeMerge at hr
  rw [List.mem_flatMap] at hr
  obtain ⟨d, _, hr⟩ := hr
  dsimp only at hr
  rcases hms : (ws.filter (fun w => warningMatches w d)).isEmpty with _ | _
  · rw [hms] at hr
    simp only [Bool.false_eq_true, if_false] at hr
    rw [List.mem_map] at hr
    obtain ⟨w, hw, hmk⟩ := hr
    rw [List.mem_filter] at hw
    obtain ⟨hwmem, hwmatch⟩ := hw
    have hmatch : w.effective = d.date ∧ w.geocode = d.geocode ∧
        w.param_id = d.param_id := of_decide_eq_true hwmatch
    refine Or.inr ⟨w, hwmem, ?_, ?_, ?_, ?_⟩
    · rw [← hmk]; exact hmatch.1
    · rw [← hmk]; exact hmatch.2.1
    · rw [← hmk]; exact hmatch.2.2
    · rw [← hmk]; rfl
  · rw [hms] at hr
    simp only [if_true, List.mem_singleton] at hr
    rw [hr]
    exact Or.inl rfl

/-- Every prepared row yields at least one final row with its key and with
its predicted severity defaulted to 0 when absent. -/
theorem summarize_mem (prepared : List MergedRow) (r : MergedRow)
    (hr : r ∈ prepared) :
    ∃ f ∈ summarizeObservedData prepared,
      f.date = r.date ∧ f.geocode = r.geocode ∧ f.param_id = r.param_id ∧
      f.predicted_severity = r.predicted_severity.getD 0 := by
  unfold summarizeObservedData
  rcases hms : ((summarizeSituations prepared).filter (fun s =>
      s.date = r.date ∧ s.param_id = r.param_id ∧ s.geocode = r.geocode)).isEmpty
    with _ | _
  · obtain ⟨s, hsmem⟩ := List.exists_mem_of_ne_nil
      ((summarizeSituations prepared).filter (fun s =>
        s.date = r.date ∧ s.param_id = r.param_id ∧ s.geocode = r.geocode))
      (fun hnil => by rw [hnil] at hms; simp at hms)
    refine ⟨mkFinalRow r (some s), ?_, rfl, rfl, rfl, rfl⟩
    rw [List.mem_flatMap]
    refine ⟨r, hr, ?_⟩
    dsimp only
    rw [hms]
    simp only [Bool.false_eq_true, if_false]
    exact List.mem_map_of_mem _ hsmem
  · refine ⟨mkFinalRow r none, ?_, rfl, rfl, rfl, rfl⟩
    rw [List.mem_flatMap]
    refine ⟨r, hr, ?_⟩
    dsimp only
    rw [hms]
    simp only [if_true]
    exact List.mem_singleton.mpr rfl

/-- Every final row comes from a prepared row with the same key, and its
predicted severity is that row's predicted severity defaulted to 0. -/
theorem summarize_source (prepared : List MergedRow) (f : FinalRow)
    (hf : f ∈ summarizeObservedData prepared) :
    ∃ r ∈ prepared,
      f.date = r.date ∧ f.geocode = r.geocode ∧ f.param_id = r.param_id ∧
      f.predicted_severity = r.predicted_severity.getD 0 := by
  unfold summarizeObservedData at hf
  rw [List.mem_flatMap] at hf
  obtain ⟨r, hr, hf⟩ := hf
  dsimp only at hf
  rcases hms : ((summarizeSituations prepared).filter (fun s =>
      s.date = r.date ∧ s.param_id = r.param_id ∧ s.geocode = r.geocode)).isEmpty
    with _ | _
  · rw [hms] at hf
    simp only [Bool.false_eq_true, if_false] at hf
    rw [List.mem_map] at hf
    obtain ⟨s, _, hmk⟩ := hf
    exact ⟨r, hr, by rw [← hmk]; exact ⟨rfl, rfl, rfl, rfl⟩⟩
  · rw [hms] at hf
    simp only [if_true, List.mem_singleton] at hf
    exact ⟨r, hr, by rw [hf]; exact ⟨rfl, rfl, rfl, rfl⟩⟩

/-- C6 as amended.  The merger's output contains a record for every key
occurring in the per-station classified observation rows (the merge is a
*left* join keyed on the observation side, so keys occurring only in the
expanded warnings are dropped); every output record with no matching warning
carries predicted severity 0; and every record's predicted severity is an
ordinal: 0 or the matching warning's mapped severity. -/
theorem C6_reconciliation_merger (dis : List DiscretizedRow)
    (ws : List ExtendedWarning) :
    (∀ d ∈ dis, ∃ f ∈ summarizeObservedData (discretizeMerge dis ws),
      f.date = d.date ∧ f.geocode = d.geocode ∧ f.param_id = d.param_id) ∧
    (∀ f ∈ summarizeObservedData (discretizeMerge dis ws),
      (∀ w ∈ ws, ¬(w.effective = f.date ∧ w.geocode = f.geocode ∧
        w.param_id = f.param_id)) →
      f.predicted_severity = 0) ∧
    (∀ f ∈ summarizeObservedData (discretizeMerge dis ws),
      f.predicted_severity = 0 ∨
      ∃ w ∈ ws, w.effective = f.date ∧ w.geocode = f.geocode ∧
        w.param_id = f.param_id ∧ w.severity.getD 0 = f.predicted_severity) := by
  refine ⟨?_, ?_, ?_⟩
  · intro d hd
    obtain ⟨r, hrmem, hr1, hr2, hr3⟩ := discretizeMerge_mem dis ws d hd
    obtain ⟨f, hfmem, hf1, hf2, hf3, _⟩ := summarize_mem (discretizeMerge dis ws) r hrmem
    exact ⟨f, hfmem, by rw [hf1, hr1], by rw [hf2, hr2], by rw [hf3, hr3]⟩
  · intro f hf hnone
    obtain ⟨r, hrmem, hf1, hf2, hf3, hfpred⟩ :=
      summarize_source (discretizeMerge dis ws) f hf
    rcases discretizeMerge_pred dis ws r hrmem with hpred | ⟨w, hw, hw1, hw2, hw3, _⟩
    · rw [hfpred, hpred]; rfl
    · exact absurd ⟨by rw [hf1, ← hw1], by rw [hf2, ← hw2], by rw [hf3, ← hw3]⟩
        (hnone w hw)
  · intro f hf
    obtain ⟨r, hrmem, hf1, hf2, hf3, hfpred⟩ :=
      summarize_source (discretizeMerge dis ws) f hf
    rcases discretizeMerge_pred dis ws r hrmem with hpred | ⟨w, hw, hw1, hw2, hw3, hwsev⟩
    · exact Or.inl (by rw [hfpred, hpred]; rfl)
    · exact Or.inr ⟨w, hw, by rw [hf1, ← hw1], by rw [hf2, ← hw2], by rw [hf3, ← hw3],
        by rw [hfpred, hwsev]⟩

/-- A warning whose key never occurs in the observation rows. -/
def wC6 : ExtendedWarning :=
  { id := "a", effective := 5, description := "", severity := some 2,
    param_id := "AT", param_name := "", param_value := 36, geocode := "61",
    polygon := "" }

/-- C6 counterexample.  The claim promises a record for every key occurring
in the expanded warnings *or* the observation rows (an outer join); with no
observation row, the left join of the code produces no record at all for the
warning's key (day 5, geocode 61, parameter AT). -/
theorem C6_outer_join_counterexample :
    summarizeObservedData (discretizeMerge [] [wC6]) = [] ∧
    ¬∃ f ∈ summarizeObservedData (discretizeMerge [] [wC6]),
      f.date = wC6.effective ∧ f.geocode = wC6.geocode ∧
        f.param_id = wC6.param_id := by
  refine ⟨rfl, ?_⟩
  rintro ⟨f, hf, _⟩
  rw [show summarizeObservedData (discretizeMerge [] [wC6]) = [] from rfl] at hf
  exact absurd hf (List.not_mem_nil f)

/-- An observation-side row matching wC6's key. -/
def dC6 : DiscretizedRow :=
  { date := 5, idema := "S1", name := "st", geocode := "61", province := "p",
    latitude := 0, longitude := 0, altitude := 0, param_id := "AT",
    station_severity := 1, station_value := 37 }

/-- Witness for the amended C6 at a concrete observation row and warning. -/
theorem C6_reconciliation_merger_witness :
    ((∀ d ∈ [dC6], ∃ f ∈ summarizeObservedData (discretizeMerge [dC6] [wC6]),
       f.date = d.date ∧ f.geocode = d.geocode ∧ f.param_id = d.param_id) ∧
     (∀ f ∈ summarizeObservedData (discretizeMerge [dC6] [wC6]),
       (∀ w ∈ [wC6], ¬(w.effective = f.date ∧ w.geocode = f.geocode ∧
         w.param_id = f.param_id)) →
       f.predicted_severity = 0) ∧
     (∀ f ∈ summarizeObservedData (discretizeMerge [dC6] [wC6]),
       f.predicted_severity = 0 ∨
       ∃ w ∈ [wC6], w.effective = f.date ∧ w.geocode = f.geocode ∧
         w.param_id = f.param_id ∧ w.severity.getD 0 = f.predicted_severity)) ∧
    (summarizeObservedData (discretizeMerge [dC6] [wC6])).map
        (fun f => (f.predicted_severity, f.region_severity, f.observed_severity)) =
      [(2, 1, 1)] :=
  ⟨C6_reconciliation_merger [dC6] [wC6], by decide⟩

/-! ### Order-independence: claim C9 -/

theorem tieKey_eq_iff (a b : CapRow) :
    tieKey a = tieKey b ↔ (a.severity = b.severity ∧ a.sent = b.sent) := by
  unfold tieKey
  rw [toLex_inj, Prod.mk.injEq, OrderDual.toDual_inj, OrderDual.toDual_inj]
  constructor
  · rintro ⟨hs, ht⟩
    exact ⟨String.ext hs, ht⟩
  · rintro ⟨hs, ht⟩
    exact ⟨congrArg String.data hs, ht⟩

theorem outerKey_le_key (a b : CapRow) (h : outerKey a ≤ outerKey b) :
    keyOf a ≤ keyOf b := by
  unfold outerKey at h
  rw [Prod.Lex.le_iff] at h
  rcases h with h | ⟨heq, _⟩
  · exact le_of_lt h
  · exact le_of_eq heq

theorem consolidate_keys_sorted (rows : List CapRow) :
    List.Sorted (fun a b : GroupKey => a ≤ b)
      (((sortByKey outerKey rows).map keyOf).dedup) := by
  have h1 : List.Sorted (fun a b => outerKey a ≤ outerKey b) (sortByKey outerKey rows) :=
    sortByKey_sorted _ _
  have h2 : List.Pairwise (fun a b : GroupKey => a ≤ b)
      ((sortByKey outerKey rows).map keyOf) := by
    rw [List.pairwise_map]
    exact h1.imp (fun hab => outerKey_le_key _ _ hab)
  exact h2.sublist (List.dedup_sublist _)

theorem consolidate_keys_eq (rows1 rows2 : List CapRow)
    (hperm : List.Perm rows1 rows2) :
    ((sortByKey outerKey rows1).map keyOf).dedup =
      ((sortByKey outerKey rows2).map keyOf).dedup := by
  haveI : IsAntisymm GroupKey (fun a b => a ≤ b) :=
    ⟨fun a b h1 h2 => le_antisymm h1 h2⟩
  refine List.eq_of_perm_of_sorted ?_ (consolidate_keys_sorted rows1)
    (consolidate_keys_sorted rows2)
  exact (((sortByKey_perm outerKey rows1).map keyOf).trans
    ((hperm.map keyOf).trans ((sortByKey_perm outerKey rows2).map keyOf).symm)).dedup

/-- Under the no-tie proviso, the group selections of two permuted inputs
agree on every group key. -/
theorem consolidate_select_eq (rows1 rows2 : List CapRow)
    (hperm : List.Perm rows1 rows2)
    (hnotie : ∀ a ∈ rows1, ∀ b ∈ rows1, keyOf a = keyOf b →
      a.severity = b.severity → a.sent = b.sent → a = b) (k : GroupKey) :
    (sortByKey tieKey ((sortByKey outerKey rows1).filter
      (fun w => keyOf w = k))).head? =
    (sortByKey tieKey ((sortByKey outerKey rows2).filter
      (fun w => keyOf w = k))).head? := by
  by_cases hex : ∃ x ∈ rows1, keyOf x = k
  · obtain ⟨x, hx, hxk⟩ := hex
    obtain ⟨h1, hh1⟩ := head_sort_filter_isSome tieKey (fun w => decide (keyOf w = k))
      (sortByKey outerKey rows1) x (((sortByKey_perm outerKey rows1).mem_iff).mpr hx)
      (decide_eq_true hxk)
    obtain ⟨h2, hh2⟩ := head_sort_filter_isSome tieKey (fun w => decide (keyOf w = k))
      (sortByKey outerKey rows2) x
      (((sortByKey_perm outerKey rows2).mem_iff).mpr (hperm.mem_iff.mp hx))
      (decide_eq_true hxk)
    have hs1 := head_sort_filter tieKey (fun w => decide (keyOf w = k))
      (sortByKey outerKey rows1) h1 hh1
    have hs2 := head_sort_filter tieKey (fun w => decide (keyOf w = k))
      (sortByKey outerKey rows2) h2 hh2
    have h1mem : h1 ∈ rows1 := ((sortByKey_perm outerKey rows1).mem_iff).mp hs1.1.1
    have h2mem : h2 ∈ rows1 :=
      hperm.mem_iff.mpr (((sortByKey_perm outerKey rows2).mem_iff).mp hs2.1.1)
    have h1k : keyOf h1 = k := of_decide_eq_true hs1.1.2
    have h2k : keyOf h2 = k := of_decide_eq_true hs2.1.2
    have hle12 : tieKey h1 ≤ tieKey h2 :=
      hs1.2 h2 (((sortByKey_perm outerKey rows1).mem_iff).mpr h2mem) (decide_eq_true h2k)
    have hle21 : tieKey h2 ≤ tieKey h1 :=
      hs2.2 h1 (((sortByKey_perm outerKey rows2).mem_iff).mpr (hperm.mem_iff.mp h1mem))
        (decide_eq_true h1k)
    obtain ⟨hsev, hsent⟩ := (tieKey_eq_iff h1 h2).mp (le_antisymm hle12 hle21)
    rw [hh1, hh2, hnotie h1 h1mem h2 h2mem (by rw [h1k, h2k]) hsev hsent]
  · push_neg at hex
    rcases hh1 : (sortByKey tieKey ((sortByKey outerKey rows1).filter
        (fun w => keyOf w = k))).head? with _ | h1
    · rcases hh2 : (sortByKey tieKey ((sortByKey outerKey rows2).filter
          (fun w => keyOf w = k))).head? with _ | h2
      · rfl
      · exfalso
        have hs2 := head_sort_filter tieKey (fun w => decide (keyOf w = k))
          (sortByKey outerKey rows2) h2 hh2
        have h2mem : h2 ∈ rows1 :=
          hperm.mem_iff.mpr (((sortByKey_perm outerKey rows2).mem_iff).mp hs2.1.1)
        exact hex h2 h2mem (of_decide_eq_true hs2.1.2)
    · exfalso
      have hs1 := head_sort_filter tieKey (fun w => decide (keyOf w = k))
        (sortByKey outerKey rows1) h1 hh1
      have h1mem : h1 ∈ rows1 := ((sortByKey_perm outerKey rows1).mem_iff).mp hs1.1.1
      exact hex h1 h1mem (of_decide_eq_true hs1.1.2)

theorem consolidateRows_perm_eq (rows1 rows2 : List CapRow)
    (hperm : List.Perm rows1 rows2)
    (hnotie : ∀ a ∈ rows1, ∀ b ∈ rows1, keyOf a = keyOf b →
      a.severity = b.severity → a.sent = b.sent → a = b) :
    consolidateRows rows1 = consolidateRows rows2 := by
  unfold consolidateRows
  dsimp only
  rw [consolidate_keys_eq rows1 rows2 hperm]
  apply List.filterMap_congr
  intro k _
  exact consolidate_select_eq rows1 rows2 hperm hnotie k

theorem descTie_eq (a b : MergedRow) (h : descTie a = descTie b) :
    a.observed_severity = b.observed_severity ∧
      a.observed_value = b.observed_value := by
  unfold descTie at h
  rw [toLex_inj, Prod.mk.injEq, OrderDual.toDual_inj, OrderDual.toDual_inj] at h
  exact h

theorem ascTie_eq (a b : MergedRow) (h : ascTie a = ascTie b) :
    a.observed_severity = b.observed_severity ∧
      a.observed_value = b.observed_value := by
  unfold ascTie at h
  rw [toLex_inj, Prod.mk.injEq, OrderDual.toDual_inj] at h
  exact h

/-- One agg-first pass is invariant under permutation of its input: the
emitted (key, severity, value) triples are fully determined by the group
multisets. -/
theorem aggFirstBy_perm {τ : Type} [LinearOrder τ] (tie : MergedRow → τ)
    (htie : ∀ a b : MergedRow, tie a = tie b →
      a.observed_severity = b.observed_severity ∧
        a.observed_value = b.observed_value)
    (l1 l2 : List MergedRow) (hperm : List.Perm l1 l2) :
    aggFirstBy tie l1 = aggFirstBy tie l2 := by
  unfold aggFirstBy
  dsimp only
  have hkeys : sortByKey (fun k => k) ((l1.map sitKeyOf).dedup) =
      sortByKey (fun k => k) ((l2.map sitKeyOf).dedup) := by
    haveI : IsAntisymm SitKey (fun a b => (fun k : SitKey => k) a ≤ (fun k : SitKey => k) b) :=
      ⟨fun a b h1 h2 => le_antisymm h1 h2⟩
    refine List.eq_of_perm_of_sorted ?_ (sortByKey_sorted _ _) (sortByKey_sorted _ _)
    exact (sortByKey_perm _ _).trans (((hperm.map sitKeyOf).dedup).trans
      (sortByKey_perm _ _).symm)
  rw [hkeys]
  apply List.filterMap_congr
  intro k _
  by_cases hex : ∃ x ∈ l1, sitKeyOf x = k
  · obtain ⟨x, hx, hxk⟩ := hex
    obtain ⟨h1, hh1⟩ := head_filter_sort_isSome tie (fun r => decide (sitKeyOf r = k))
      l1 x hx (decide_eq_true hxk)
    obtain ⟨h2, hh2⟩ := head_filter_sort_isSome tie (fun r => decide (sitKeyOf r = k))
      l2 x (hperm.mem_iff.mp hx) (decide_eq_true hxk)
    have hs1 := head_filter_sort tie (fun r => decide (sitKeyOf r = k)) l1 h1 hh1
    have hs2 := head_filter_sort tie (fun r => decide (sitKeyOf r = k)) l2 h2 hh2
    have h1k : sitKeyOf h1 = k := of_decide_eq_true hs1.1.2
    have h2k : sitKeyOf h2 = k := of_decide_eq_true hs2.1.2
    have h2mem1 : h2 ∈ l1 := hperm.mem_iff.mpr hs2.1.1
    have hle12 : tie h1 ≤ tie h2 := hs1.2 h2 h2mem1 (decide_eq_true h2k)
    have hle21 : tie h2 ≤ tie h1 :=
      hs2.2 h1 (hperm.mem_iff.mp hs1.1.1) (decide_eq_true h1k)
    obtain ⟨hsev, hval⟩ := htie h1 h2 (le_antisymm hle12 hle21)
    obtain ⟨hdate, hparam, hgeo⟩ := (sitKeyOf_eq_iff h1 h2).mp (by rw [h1k, h2k])
    rw [hh1, hh2, Option.map_some', Option.map_some', hdate, hparam, hgeo, hsev, hval]
  · push_neg at hex
    rcases hh1 : ((sortByKey tie l1).filter (fun r => sitKeyOf r = k)).head? with _ | h1
    · rcases hh2 : ((sortByKey tie l2).filter (fun r => sitKeyOf r = k)).head? with _ | h2
      · rfl
      · exfalso
        have hs2 := head_filter_sort tie (fun r => decide (sitKeyOf r = k)) l2 h2 hh2
        exact hex h2 (hperm.mem_iff.mpr hs2.1.1) (of_decide_eq_true hs2.1.2)
    · exfalso
      have hs1 := head_filter_sort tie (fun r => decide (sitKeyOf r = k)) l1 h1 hh1
      exact hex h1 hs1.1.1 (of_decide_eq_true hs1.1.2)

theorem summarizeSituations_perm (l1 l2 : List MergedRow)
    (hperm : List.Perm l1 l2) :
    summarizeSituations l1 = summarizeSituations l2 := by
  unfold summarizeSituations
  rw [aggFirstBy_perm descTie descTie_eq _ _ (hperm.filter _),
    aggFirstBy_perm ascTie ascTie_eq _ _ (hperm.filter _)]

/-- C9 as amended.  The Regional Aggregator's per-(date, geocode, parameter)
severity/value output is identical on any permutation of its input; the
Bulletin Consolidator's output is identical on any permutation provided no
group contains two distinct rows agreeing on both severity token and sent
timestamp — with such a full tie the surviving row depends on input order. -/
theorem C9_order_independence :
    (∀ rows1 rows2 : List CapRow, List.Perm rows1 rows2 →
      (∀ a ∈ rows1, ∀ b ∈ rows1, keyOf a = keyOf b → a.severity = b.severity →
        a.sent = b.sent → a = b) →
      cleanCapsFiles rows1 = cleanCapsFiles rows2) ∧
    (∀ l1 l2 : List MergedRow, List.Perm l1 l2 →
      summarizeSituations l1 = summarizeSituations l2) := by
  constructor
  · intro rows1 rows2 hperm hnotie
    unfold cleanCapsFiles
    rw [consolidateRows_perm_eq rows1 rows2 hperm hnotie]
  · exact summarizeSituations_perm

/-- C9 counterexample rows: a full tie — same group key, same severity token,
same sent timestamp, different id and value. -/
def rT1 : CapRow :=
  { id := "x", sent := 8, description := "", effective := 1, expires := 1,
    severity := "amarillo", param_id := "AT", param_name := "", param_value := 10,
    geocode := "61", polygon := "" }

def rT2 : CapRow := { rT1 with id := "y", param_value := 20 }

/-- C9 counterexample.  The claim says the Consolidator produces identical
output on any permutation of its input.  With two rows tied on both severity
and sent, swapping the input order changes which full row survives. -/
theorem C9_consolidator_counterexample :
    List.Perm [rT1, rT2] [rT2, rT1] ∧
    cleanCapsFiles [rT1, rT2] ≠ cleanCapsFiles [rT2, rT1] := by
  constructor
  · decide
  · decide

/-- Witness for the amended C9: a permuted pair without full ties for the
consolidator, and a permuted pair of observation rows for the aggregator. -/
theorem C9_order_independence_witness :
    (List.Perm [wScenA1, wScenA2] [wScenA2, wScenA1] ∧
     (∀ a ∈ [wScenA1, wScenA2], ∀ b ∈ [wScenA1, wScenA2], keyOf a = keyOf b →
       a.severity = b.severity → a.sent = b.sent → a = b) ∧
     List.Perm [rD1, rD2, rD3] [rD3, rD1, rD2]) ∧
    cleanCapsFiles [wScenA1, wScenA2] = cleanCapsFiles [wScenA2, wScenA1] ∧
    summarizeSituations [rD1, rD2, rD3] = summarizeSituations [rD3, rD1, rD2] :=
  ⟨⟨by decide, by decide, by decide⟩,
   C9_order_independence.1 [wScenA1, wScenA2] [wScenA2, wScenA1] (by decide) (by decide),
   C9_order_independence.2 [rD1, rD2, rD3] [rD3, rD1, rD2] (by decide)⟩

end ExtremeEventAnalysis
